import Mathlib

/-!
Verification of the waffle_dough per-record schema/validation/derivation engine
(`waffle_dough/field/annotation_info.py` and its collaborators).

The record model, the task-specific factories, the required-field table and the
derivation pipeline `set_default_values` are translated directly from
`src/waffle_dough/field/annotation_info.py`.  The validator bodies
(`waffle_dough/field/validator/annotation_validator.py`), the geometry routines
(`waffle_dough/math/box.py`, `waffle_dough/math/segmentation.py`) and the
`BaseField` base class (construction order, serialization, equality) are not
part of the provided sources; definitions for those carry a doc comment
starting with `Modelled from the spec:` and follow the specification's words
(sections 3, 4.1 to 4.4) together with the behavior pinned down by the
repository's own tests (`src/tests/field/test_annotation_info.py`).

Numbers are modelled as rationals; Python `None` is `Option.none`; a factory
call with keyword arguments is modelled by an association list so that the
distinction between an omitted argument (language-level `TypeError`) and an
explicit `None` is expressible.
-/

namespace WaffleDough

/-- Decidable equality of construction outcomes, so that concrete scenarios
evaluate by `decide`. -/
instance {ε α : Type} [DecidableEq ε] [DecidableEq α] : DecidableEq (Except ε α) :=
  fun x y =>
    match x, y with
    | .ok a, .ok b =>
      if h : a = b then .isTrue (by rw [h]) else .isFalse (by simp [h])
    | .error a, .error b =>
      if h : a = b then .isTrue (by rw [h]) else .isFalse (by simp [h])
    | .ok _, .error _ => .isFalse (by simp)
    | .error _, .ok _ => .isFalse (by simp)

/-- Task types, from `waffle_dough/type` (values fixed by the spec section 3
and the test file's expected `task` strings). -/
inductive TaskType
  | CLASSIFICATION
  | OBJECT_DETECTION
  | SEMANTIC_SEGMENTATION
  | INSTANCE_SEGMENTATION
  | KEYPOINT_DETECTION
  | TEXT_RECOGNITION
  | REGRESSION
deriving DecidableEq, Repr

/-- The `task` string of each task type, as in the tests' expected mappings. -/
def taskName : TaskType → String
  | .CLASSIFICATION => "classification"
  | .OBJECT_DETECTION => "object_detection"
  | .SEMANTIC_SEGMENTATION => "semantic_segmentation"
  | .INSTANCE_SEGMENTATION => "instance_segmentation"
  | .KEYPOINT_DETECTION => "keypoint_detection"
  | .TEXT_RECOGNITION => "text_recognition"
  | .REGRESSION => "regression"

/-- Segmentation format selector, from `waffle_dough/type` (`SegmentationType`). -/
inductive SegmentationType
  | POLYGON
  | RLE
deriving DecidableEq, Repr

/-- Box format selector, from `waffle_dough/type` (`BoxType`). -/
inductive BoxType
  | XYWH
  | XYXY
  | CXCYWH
deriving DecidableEq, Repr

/-- A segmentation value: either a polygon list (list of flat coordinate
lists) or an RLE mask dict carrying the recognized structural keys
(`counts`, `size`), treated as opaque beyond key presence (spec section 3). -/
inductive Seg
  | poly (ps : List (List ℚ))
  | rle (counts : List Nat) (size : List Nat)
deriving DecidableEq, Repr

/-- A dynamic (Python-level) value, as received by a factory keyword argument
or stored in a record's mapping form. -/
inductive JVal
  | null
  | s (v : String)
  | q (v : ℚ)
  | i (v : Int)
  | b (v : Bool)
  | qlist (v : List ℚ)
  | seg (v : Seg)
deriving DecidableEq, Repr

/-- Error outcomes of record construction (spec section 7): the
language-level argument error (`TypeError`), `FieldValidationError` (named
field), `FieldMissingError` (named field), and `GeometryError` from the
geometry routines. -/
inductive Err
  | typeError
  | fieldValidation (f : String)
  | fieldMissing (f : String)
  | geometryError
deriving DecidableEq, Repr

/-! ## Geometry math

Modelled from the spec (section 4.1): `waffle_dough/math/box.py` and
`waffle_dough/math/segmentation.py` are not among the provided sources. -/

/-- Elements at even positions of a flat coordinate list (the x coordinates). -/
def evenCoords : List ℚ → List ℚ
  | [] => []
  | [x] => [x]
  | x :: _ :: rest => x :: evenCoords rest

/-- Elements at odd positions of a flat coordinate list (the y coordinates). -/
def oddCoords : List ℚ → List ℚ
  | [] => []
  | [_] => []
  | _ :: y :: rest => y :: oddCoords rest

/-- A flat coordinate list as a list of points (trailing odd element dropped). -/
def toPoints : List ℚ → List (ℚ × ℚ)
  | x :: y :: rest => (x, y) :: toPoints rest
  | _ => []

/-- Cross product term of the shoelace formula. -/
def cross (a b : ℚ × ℚ) : ℚ := a.1 * b.2 - b.1 * a.2

/-- Cyclic shoelace sum over a point list, closing back to `first`. -/
def shoelace (first : ℚ × ℚ) : List (ℚ × ℚ) → ℚ
  | [] => 0
  | [a] => cross a first
  | a :: b :: rest => cross a b + shoelace first (b :: rest)

/-- Modelled from the spec: shoelace-formula area of one flat polygon,
absolute value halved (winding order is not contract-significant). -/
def polyAreaOne (p : List ℚ) : ℚ :=
  match toPoints p with
  | [] => 0
  | a :: rest => |shoelace a (a :: rest)| / 2

/-- Modelled from the spec: polygon segmentation area, summed over
sub-polygons (spec section 4.1, `get_segmentation_area` for polygon format). -/
def polyArea (ps : List (List ℚ)) : ℚ := (ps.map polyAreaOne).sum

/-- Modelled from the spec: tight axis-aligned bounding box over all polygon
vertices, in XYWH (spec section 4.1, `get_segmentation_box` for polygon
format); an empty vertex set is undefined and signals an error. -/
def polyBox (ps : List (List ℚ)) : Except Err (List ℚ) :=
  let xs := (ps.map evenCoords).flatten
  let ys := (ps.map oddCoords).flatten
  match xs.min?, ys.min?, xs.max?, ys.max? with
  | some x0, some y0, some x1, some y1 => .ok [x0, y0, x1 - x0, y1 - y0]
  | _, _, _, _ => .error .geometryError

/-- Modelled from the spec: `get_segmentation_box(seg, format)`.  The polygon
branch applies the polygon routine, which is only meaningful on a polygon
value; applied to an RLE dict it fails (in Python it raises while iterating
the dict as if it were a polygon list).  The RLE branch decodes mask pixels,
which the spec treats as opaque and which is never invoked by the derivation
pipeline (src lines 100 and 104 always pass `SegmentationType.POLYGON`), so it
is modelled as outside the embedded core. -/
def get_segmentation_box (s : Seg) (fmt : SegmentationType) : Except Err (List ℚ) :=
  match fmt, s with
  | .POLYGON, .poly ps => polyBox ps
  | .POLYGON, .rle _ _ => .error .geometryError
  | .RLE, _ => .error .geometryError

/-- Modelled from the spec: `get_segmentation_area(seg, format)`; same format
conventions as `get_segmentation_box`. -/
def get_segmentation_area (s : Seg) (fmt : SegmentationType) : Except Err ℚ :=
  match fmt, s with
  | .POLYGON, .poly ps => .ok (polyArea ps)
  | .POLYGON, .rle _ _ => .error .geometryError
  | .RLE, _ => .error .geometryError

/-- Modelled from the spec: `get_box_area(box, format)` is width times height
for every format (converting internally), failing with `GeometryError` when
the width or height is negative (spec section 4.1). -/
def get_box_area (b : List ℚ) (fmt : BoxType) : Except Err ℚ :=
  match b with
  | [p, q, r, s] =>
    let w : ℚ := match fmt with | .XYXY => r - p | _ => r
    let h : ℚ := match fmt with | .XYXY => s - q | _ => s
    if w < 0 ∨ h < 0 then .error .geometryError else .ok (w * h)
  | _ => .error .geometryError

/-! ## Field validators

Modelled from the spec (section 4.2 table):
`waffle_dough/field/validator/annotation_validator.py` is not among the
provided sources.  Each validator receives the raw dynamic value; `None`
normalizes to absence; a violated constraint — including a value of the wrong
dynamic type, which the repository's tests pin to `FieldValidationError`
(e.g. `area="asdf"` in `test_object_detection_annotation_info`) — fails with
`FieldValidationError` naming the field. -/

/-- Modelled from the spec: pydantic string-field intake for `image_id` /
`category_id` (no dedicated validator exists for them in the source); a
non-string non-null value is a validation failure naming the field. -/
def decodeStr (f : String) : JVal → Except Err (Option String)
  | .null => .ok none
  | .s v => .ok (some v)
  | _ => .error (.fieldValidation f)

/-- Modelled from the spec: bbox is exactly 4 numeric elements, all nonnegative. -/
def validate_bbox : JVal → Except Err (Option (List ℚ))
  | .null => .ok none
  | .qlist l =>
    if l.length = 4 ∧ ∀ x ∈ l, 0 ≤ x then .ok (some l)
    else .error (.fieldValidation "bbox")
  | _ => .error (.fieldValidation "bbox")

/-- Modelled from the spec: a polygon segmentation needs every sub-list of
even length at least 6; an RLE value must carry the recognized structural
keys (guaranteed by the `Seg.rle` constructor) and is not decoded further. -/
def validate_segmentation : JVal → Except Err (Option Seg)
  | .null => .ok none
  | .seg (.poly ps) =>
    if ∀ p ∈ ps, p.length % 2 = 0 ∧ 6 ≤ p.length then .ok (some (.poly ps))
    else .error (.fieldValidation "segmentation")
  | .seg (.rle c z) => .ok (some (.rle c z))
  | _ => .error (.fieldValidation "segmentation")

/-- Modelled from the spec: area is numeric and nonnegative. -/
def validate_area : JVal → Except Err (Option ℚ)
  | .null => .ok none
  | .q a => if 0 ≤ a then .ok (some a) else .error (.fieldValidation "area")
  | .i n => if 0 ≤ n then .ok (some (n : ℚ)) else .error (.fieldValidation "area")
  | _ => .error (.fieldValidation "area")

/-- Visibility-flag structure of a keypoint list: triples whose third entry is
0, 1 or 2 (also forces the length to be a multiple of 3). -/
def kpOk : List ℚ → Bool
  | [] => true
  | _ :: _ :: v :: rest => (v == 0 || v == 1 || v == 2) && kpOk rest
  | _ => false

/-- Modelled from the spec: keypoints come in (x, y, visibility) triples with
each visibility in 0, 1, 2. -/
def validate_keypoints : JVal → Except Err (Option (List ℚ))
  | .null => .ok none
  | .qlist l => if kpOk l then .ok (some l) else .error (.fieldValidation "keypoints")
  | _ => .error (.fieldValidation "keypoints")

/-- Modelled from the spec: num_keypoints is an integer, nonnegative. -/
def validate_num_keypoints : JVal → Except Err (Option Int)
  | .null => .ok none
  | .i n => if 0 ≤ n then .ok (some n) else .error (.fieldValidation "num_keypoints")
  | _ => .error (.fieldValidation "num_keypoints")

/-- Modelled from the spec: value is numeric (no further constraint). -/
def validate_value : JVal → Except Err (Option ℚ)
  | .null => .ok none
  | .q v => .ok (some v)
  | .i n => .ok (some (n : ℚ))
  | _ => .error (.fieldValidation "value")

/-- Modelled from the spec: caption is a non-empty string. -/
def validate_caption : JVal → Except Err (Option String)
  | .null => .ok none
  | .s c => if c = "" then .error (.fieldValidation "caption") else .ok (some c)
  | _ => .error (.fieldValidation "caption")

/-- Modelled from the spec: iscrowd is 0 or 1. -/
def validate_iscrowd : JVal → Except Err (Option Int)
  | .null => .ok none
  | .i n => if n = 0 ∨ n = 1 then .ok (some n) else .error (.fieldValidation "iscrowd")
  | _ => .error (.fieldValidation "iscrowd")

/-- Modelled from the spec: score is numeric, between 0 and 1. -/
def validate_score : JVal → Except Err (Option ℚ)
  | .null => .ok none
  | .q v => if 0 ≤ v ∧ v ≤ 1 then .ok (some v) else .error (.fieldValidation "score")
  | .i n => if 0 ≤ (n : ℚ) ∧ (n : ℚ) ≤ 1 then .ok (some (n : ℚ)) else .error (.fieldValidation "score")
  | _ => .error (.fieldValidation "score")

/-- Modelled from the spec: is_prediction is a boolean. -/
def validate_is_prediction : JVal → Except Err (Option Bool)
  | .null => .ok none
  | .b v => .ok (some v)
  | _ => .error (.fieldValidation "is_prediction")

/-! ## The record and its construction -/

/-- The validated record, fields and order as declared in
`AnnotationInfo` (annotation_info.py lines 28 to 40), minus the surrogate
`id`, which is kept outside (`IdentifiedInfo`) because it never participates
in equality (spec section 3). -/
structure AnnotationInfo where
  task : TaskType
  image_id : Option String
  category_id : Option String
  bbox : Option (List ℚ)
  segmentation : Option Seg
  area : Option ℚ
  keypoints : Option (List ℚ)
  num_keypoints : Option Int
  caption : Option String
  value : Option ℚ
  iscrowd : Option Int
  score : Option ℚ
  is_prediction : Option Bool
deriving DecidableEq, Repr

/-- A record together with its generated surrogate identifier. -/
structure IdentifiedInfo where
  id : String
  info : AnnotationInfo
deriving DecidableEq, Repr

/-- Modelled from the spec: the equality law of records — every attribute
except `id` participates (spec section 3; `BaseField.__eq__` is not among the
provided sources, but the repository test asserts records with distinct
generated ids and identical attributes compare equal). -/
def eqExceptId (a b : IdentifiedInfo) : Prop := a.info = b.info

/-- Raw keyword-argument values reaching the `AnnotationInfo` constructor;
defaults are the pydantic field defaults (annotation_info.py lines 29 to 40:
everything `None` except `is_prediction = False`). -/
structure RawInfo where
  image_id : JVal := .null
  category_id : JVal := .null
  bbox : JVal := .null
  segmentation : JVal := .null
  area : JVal := .null
  keypoints : JVal := .null
  num_keypoints : JVal := .null
  caption : JVal := .null
  value : JVal := .null
  iscrowd : JVal := .null
  score : JVal := .null
  is_prediction : JVal := .b false
deriving DecidableEq, Repr

/-- The task-conditioned required-field table, translated from
`AnnotationInfo.extra_required_fields` (annotation_info.py lines 42 to 50). -/
def extra_required_fields : TaskType → List String
  | .CLASSIFICATION => ["image_id", "category_id"]
  | .OBJECT_DETECTION => ["image_id", "category_id", "bbox"]
  | .SEMANTIC_SEGMENTATION => ["image_id", "category_id", "segmentation"]
  | .INSTANCE_SEGMENTATION => ["image_id", "category_id", "segmentation"]
  | .KEYPOINT_DETECTION => ["image_id", "category_id", "keypoints"]
  | .TEXT_RECOGNITION => ["image_id", "caption"]
  | .REGRESSION => ["image_id", "category_id", "value"]

/-- Whether the named attribute of a record is null (used by the
required-field check; names are the ones appearing in the table). -/
def isNullField (r : AnnotationInfo) : String → Bool
  | "image_id" => r.image_id.isNone
  | "category_id" => r.category_id.isNone
  | "bbox" => r.bbox.isNone
  | "segmentation" => r.segmentation.isNone
  | "keypoints" => r.keypoints.isNone
  | "caption" => r.caption.isNone
  | "value" => r.value.isNone
  | _ => false

/-- The default-value derivation pipeline, translated line by line from
`AnnotationInfo.set_default_values` (annotation_info.py lines 96 to 115):
bbox from the segmentation, then area from the segmentation or else from the
(possibly just derived) bbox, then iscrowd, then num_keypoints (total triple
count), then is_prediction from score presence.  Geometry failures propagate. -/
def set_default_values (r : AnnotationInfo) : Except Err AnnotationInfo := do
  let bbox : Option (List ℚ) ←
    match r.bbox, r.segmentation with
    | none, some s => (get_segmentation_box s SegmentationType.POLYGON).map some
    | b, _ => pure b
  let area : Option ℚ ←
    match r.area, r.segmentation, bbox with
    | none, some s, _ => (get_segmentation_area s SegmentationType.POLYGON).map some
    | none, none, some bb => (get_box_area bb BoxType.XYWH).map some
    | a, _, _ => pure a
  let iscrowd : Option Int :=
    if r.iscrowd = none ∧ bbox.isSome then some 0 else r.iscrowd
  let num_keypoints : Option Int :=
    if r.num_keypoints = none then r.keypoints.map (fun ks => ((ks.length / 3 : Nat) : Int))
    else r.num_keypoints
  let is_prediction : Option Bool :=
    if r.score.isSome then some true else r.is_prediction
  pure { r with
    bbox := bbox, area := area, iscrowd := iscrowd,
    num_keypoints := num_keypoints, is_prediction := is_prediction }

/-- Record construction: per-field validation in field declaration order,
then the derivation pipeline, then the required-field check in table order
(the check order is modelled from the spec, sections 4.3 and 4.4, since
`BaseField.__init__` is not among the provided sources; the repository tests
pin `image_id=None` to `FieldMissingError`). -/
def construct (t : TaskType) (raw : RawInfo) : Except Err AnnotationInfo := do
  let image_id ← decodeStr "image_id" raw.image_id
  let category_id ← decodeStr "category_id" raw.category_id
  let bbox ← validate_bbox raw.bbox
  let seg ← validate_segmentation raw.segmentation
  let area ← validate_area raw.area
  let keypoints ← validate_keypoints raw.keypoints
  let num_keypoints ← validate_num_keypoints raw.num_keypoints
  let caption ← validate_caption raw.caption
  let value ← validate_value raw.value
  let iscrowd ← validate_iscrowd raw.iscrowd
  let score ← validate_score raw.score
  let is_prediction ← validate_is_prediction raw.is_prediction
  let r ← set_default_values
    ⟨t, image_id, category_id, bbox, seg, area, keypoints,
      num_keypoints, caption, value, iscrowd, score, is_prediction⟩
  match (extra_required_fields t).find? (fun f => isNullField r f) with
  | some f => .error (.fieldMissing f)
  | none => .ok r

/-! ## Task-specific factories (annotation_info.py lines 117 to 334)

Each factory passes exactly its parameters; every other field keeps its
pydantic default. -/

/-- `AnnotationInfo.classification`. -/
def classification (image_id category_id score : JVal) : Except Err AnnotationInfo :=
  construct .CLASSIFICATION
    { image_id := image_id, category_id := category_id, score := score }

/-- `AnnotationInfo.object_detection`. -/
def object_detection (image_id category_id bbox area iscrowd score : JVal) :
    Except Err AnnotationInfo :=
  construct .OBJECT_DETECTION
    { image_id := image_id, category_id := category_id, bbox := bbox,
      area := area, iscrowd := iscrowd, score := score }

/-- `AnnotationInfo.semantic_segmentation`. -/
def semantic_segmentation (image_id category_id segm bbox area iscrowd score : JVal) :
    Except Err AnnotationInfo :=
  construct .SEMANTIC_SEGMENTATION
    { image_id := image_id, category_id := category_id, segmentation := segm,
      bbox := bbox, area := area, iscrowd := iscrowd, score := score }

/-- `AnnotationInfo.instance_segmentation`. -/
def instance_segmentation (image_id category_id segm bbox area iscrowd score : JVal) :
    Except Err AnnotationInfo :=
  construct .INSTANCE_SEGMENTATION
    { image_id := image_id, category_id := category_id, segmentation := segm,
      bbox := bbox, area := area, iscrowd := iscrowd, score := score }

/-- `AnnotationInfo.keypoint_detection`. -/
def keypoint_detection
    (image_id category_id keypoints bbox num_keypoints area segm iscrowd score : JVal) :
    Except Err AnnotationInfo :=
  construct .KEYPOINT_DETECTION
    { image_id := image_id, category_id := category_id, keypoints := keypoints,
      bbox := bbox, num_keypoints := num_keypoints, area := area,
      segmentation := segm, iscrowd := iscrowd, score := score }

/-- `AnnotationInfo.regression`. -/
def regression (image_id category_id value : JVal) : Except Err AnnotationInfo :=
  construct .REGRESSION
    { image_id := image_id, category_id := category_id, value := value }

/-- `AnnotationInfo.text_recognition`. -/
def text_recognition (image_id category_id caption score : JVal) :
    Except Err AnnotationInfo :=
  construct .TEXT_RECOGNITION
    { image_id := image_id, category_id := category_id, caption := caption,
      score := score }

/-- Dispatch to the task-specific factory, passing the relevant raw fields. -/
def runFactory : TaskType → RawInfo → Except Err AnnotationInfo
  | .CLASSIFICATION, raw => classification raw.image_id raw.category_id raw.score
  | .OBJECT_DETECTION, raw =>
    object_detection raw.image_id raw.category_id raw.bbox raw.area raw.iscrowd raw.score
  | .SEMANTIC_SEGMENTATION, raw =>
    semantic_segmentation raw.image_id raw.category_id raw.segmentation raw.bbox
      raw.area raw.iscrowd raw.score
  | .INSTANCE_SEGMENTATION, raw =>
    instance_segmentation raw.image_id raw.category_id raw.segmentation raw.bbox
      raw.area raw.iscrowd raw.score
  | .KEYPOINT_DETECTION, raw =>
    keypoint_detection raw.image_id raw.category_id raw.keypoints raw.bbox
      raw.num_keypoints raw.area raw.segmentation raw.iscrowd raw.score
  | .REGRESSION, raw => regression raw.image_id raw.category_id raw.value
  | .TEXT_RECOGNITION, raw =>
    text_recognition raw.image_id raw.category_id raw.caption raw.score

/-- A factory call that also attaches the generated surrogate id. -/
def buildFactory (id : String) (t : TaskType) (raw : RawInfo) :
    Except Err IdentifiedInfo :=
  (runFactory t raw).map (IdentifiedInfo.mk id)

/-! ## Keyword-argument call protocol

A Python factory call site supplies a keyword-argument dict.  Omitting a
parameter that has no default raises the language-level `TypeError`; so does
passing an unexpected keyword.  This layer models those call mechanics for
the factory signatures visible in annotation_info.py. -/

/-- A keyword-argument dict, as an association list. -/
abbrev KwArgs := List (String × JVal)

/-- First value bound to a key, if any. -/
def lookupKw (kw : KwArgs) (k : String) : Option JVal :=
  (kw.find? (fun p => p.1 == k)).map (fun p => p.2)

/-- Whether a key is supplied. -/
def hasKw (kw : KwArgs) (k : String) : Bool := (lookupKw kw k).isSome

/-- The supplied value, or null when absent. -/
def getKw (kw : KwArgs) (k : String) : JVal := (lookupKw kw k).getD .null

/-- Whether every supplied key is an expected parameter name. -/
def keysOk (kw : KwArgs) (allowed : List String) : Bool :=
  kw.all (fun p => allowed.contains p.1)

/-- The parameter names of each factory signature
(annotation_info.py lines 117 to 334). -/
def factoryParams : TaskType → List String
  | .CLASSIFICATION => ["image_id", "category_id", "score"]
  | .OBJECT_DETECTION => ["image_id", "category_id", "bbox", "area", "iscrowd", "score"]
  | .SEMANTIC_SEGMENTATION =>
    ["image_id", "category_id", "segmentation", "bbox", "area", "iscrowd", "score"]
  | .INSTANCE_SEGMENTATION =>
    ["image_id", "category_id", "segmentation", "bbox", "area", "iscrowd", "score"]
  | .KEYPOINT_DETECTION =>
    ["image_id", "category_id", "keypoints", "bbox", "num_keypoints", "area",
      "segmentation", "iscrowd", "score"]
  | .REGRESSION => ["image_id", "category_id", "value"]
  | .TEXT_RECOGNITION => ["image_id", "category_id", "caption", "score"]

/-- The parameters of each factory that carry no default and are therefore
mandatory at every call site (annotation_info.py: `classification(image_id,
category_id, ...)`, `object_detection(..., bbox, ...)`,
`semantic_segmentation(..., segmentation, ...)`, `instance_segmentation(...,
segmentation, ...)`, `keypoint_detection(..., keypoints, bbox, ...)`,
`regression(..., value)`, `text_recognition(..., caption, ...)`). -/
def mandatoryParams : TaskType → List String
  | .CLASSIFICATION => ["image_id", "category_id"]
  | .OBJECT_DETECTION => ["image_id", "category_id", "bbox"]
  | .SEMANTIC_SEGMENTATION => ["image_id", "category_id", "segmentation"]
  | .INSTANCE_SEGMENTATION => ["image_id", "category_id", "segmentation"]
  | .KEYPOINT_DETECTION => ["image_id", "category_id", "keypoints", "bbox"]
  | .REGRESSION => ["image_id", "category_id", "value"]
  | .TEXT_RECOGNITION => ["image_id", "category_id", "caption"]

/-- Raw constructor input assembled from a keyword dict; absent optional
parameters take the Python defaults of the factory signatures (`None`
everywhere except `iscrowd = 0`). -/
def rawOfKw (kw : KwArgs) : RawInfo :=
  { image_id := getKw kw "image_id"
    category_id := getKw kw "category_id"
    bbox := getKw kw "bbox"
    segmentation := getKw kw "segmentation"
    area := getKw kw "area"
    keypoints := getKw kw "keypoints"
    num_keypoints := getKw kw "num_keypoints"
    caption := getKw kw "caption"
    value := getKw kw "value"
    iscrowd := (lookupKw kw "iscrowd").getD (.i 0)
    score := getKw kw "score" }

/-- A keyword-argument call of a task factory: unexpected keywords or missing
mandatory parameters raise the language-level argument error before anything
else runs. -/
def call_task (t : TaskType) (kw : KwArgs) : Except Err AnnotationInfo :=
  if keysOk kw (factoryParams t) && (mandatoryParams t).all (fun f => hasKw kw f)
  then runFactory t (rawOfKw kw)
  else .error .typeError

/-- Keyword call of `AnnotationInfo.classification`. -/
def call_classification (kw : KwArgs) : Except Err AnnotationInfo :=
  call_task .CLASSIFICATION kw

/-- Keyword call of `AnnotationInfo.keypoint_detection`. -/
def call_keypoint_detection (kw : KwArgs) : Except Err AnnotationInfo :=
  call_task .KEYPOINT_DETECTION kw

/-! ## Serialization -/

/-- A key-value pair for a present optional attribute, nothing for an absent
one. -/
def encodeOpt {α : Type} (k : String) (f : α → JVal) : Option α → KwArgs
  | none => []
  | some v => [(k, f v)]

/-- Modelled from the spec: `to_mapping()` (`BaseField.to_dict` is not among
the provided sources).  The mapping carries `id`, the task string, and every
present (non-null) attribute as a primitive value; `is_prediction` appears
when true, matching the spec's section 8 scenario mappings and the expected
dictionaries of the repository tests, which omit null attributes and the
default false `is_prediction`. -/
def to_mapping (x : IdentifiedInfo) : KwArgs :=
  [("id", .s x.id), ("task", .s (taskName x.info.task))]
  ++ encodeOpt "image_id" .s x.info.image_id
  ++ encodeOpt "category_id" .s x.info.category_id
  ++ encodeOpt "bbox" .qlist x.info.bbox
  ++ encodeOpt "segmentation" .seg x.info.segmentation
  ++ encodeOpt "area" .q x.info.area
  ++ encodeOpt "keypoints" .qlist x.info.keypoints
  ++ encodeOpt "num_keypoints" .i x.info.num_keypoints
  ++ encodeOpt "caption" .s x.info.caption
  ++ encodeOpt "value" .q x.info.value
  ++ encodeOpt "iscrowd" .i x.info.iscrowd
  ++ encodeOpt "score" .q x.info.score
  ++ (if x.info.is_prediction = some true then [("is_prediction", .b true)] else [])

/-- Modelled from the spec: `from_mapping(task, mapping)` reconstructs a
record through the task-specific factory, using the mapping's entries as
keyword arguments (spec section 4.4); entries that are not parameters of that
factory (`id`, `task`, `is_prediction`) cannot be keyword arguments and are
dropped.  A fresh surrogate id is generated. -/
def from_mapping (id : String) (t : TaskType) (m : KwArgs) :
    Except Err IdentifiedInfo :=
  (call_task t (m.filter (fun p => (factoryParams t).contains p.1))).map
    (IdentifiedInfo.mk id)

/-! ## The update record (annotation_info.py lines 337 to 388) -/

/-- `UpdateAnnotationInfo`: every field optional, defaulting to null. -/
structure UpdateAnnotationInfo where
  category_id : Option String
  bbox : Option (List ℚ)
  segmentation : Option Seg
  area : Option ℚ
  keypoints : Option (List ℚ)
  num_keypoints : Option Int
  caption : Option String
  value : Option ℚ
  iscrowd : Option Int
  score : Option ℚ
  is_prediction : Option Bool
deriving DecidableEq, Repr

/-- Raw keyword values reaching the `UpdateAnnotationInfo` constructor; every
default is null. -/
structure RawUpdate where
  category_id : JVal := .null
  bbox : JVal := .null
  segmentation : JVal := .null
  area : JVal := .null
  keypoints : JVal := .null
  num_keypoints : JVal := .null
  caption : JVal := .null
  value : JVal := .null
  iscrowd : JVal := .null
  score : JVal := .null
  is_prediction : JVal := .null
deriving DecidableEq, Repr

/-- Construction of `UpdateAnnotationInfo`: the same per-field validators as
`AnnotationInfo` (the source wires the identical `validate_*` functions), but
no derivation pipeline and no required-field check. -/
def construct_update (raw : RawUpdate) : Except Err UpdateAnnotationInfo := do
  let category_id ← decodeStr "category_id" raw.category_id
  let bbox ← validate_bbox raw.bbox
  let seg ← validate_segmentation raw.segmentation
  let area ← validate_area raw.area
  let keypoints ← validate_keypoints raw.keypoints
  let num_keypoints ← validate_num_keypoints raw.num_keypoints
  let caption ← validate_caption raw.caption
  let value ← validate_value raw.value
  let iscrowd ← validate_iscrowd raw.iscrowd
  let score ← validate_score raw.score
  let is_prediction ← validate_is_prediction raw.is_prediction
  pure ⟨category_id, bbox, seg, area, keypoints, num_keypoints, caption,
    value, iscrowd, score, is_prediction⟩

/-- The derived count the spec's data-model section asks for: the number of
keypoint triples whose visibility flag exceeds zero (stated here from the
spec's words, for comparison with the source's rule). -/
def visibleKeypointCount : List ℚ → Nat
  | _ :: _ :: v :: rest => (if 0 < v then 1 else 0) + visibleKeypointCount rest
  | _ => 0

/-! ## Helper lemmas -/

@[simp] theorem ok_bind {ε α β : Type} (a : α) (f : α → Except ε β) :
    (Except.ok (ε := ε) a) >>= f = f a := rfl

@[simp] theorem error_bind {ε α β : Type} (e : ε) (f : α → Except ε β) :
    (Except.error (α := α) e) >>= f = Except.error e := rfl

@[simp] theorem ok_map {ε α β : Type} (a : α) (f : α → β) :
    (Except.ok (ε := ε) a).map f = Except.ok (f a) := rfl

@[simp] theorem error_map {ε α β : Type} (e : ε) (f : α → β) :
    (Except.error (α := α) e).map f = Except.error (α := β) e := rfl

theorem decodeStr_ok {f : String} {v : JVal} {o : Option String}
    (h : decodeStr f v = .ok o) :
    (v = .null ∧ o = none) ∨ ∃ s, v = .s s ∧ o = some s := by
  cases v <;> simp [decodeStr] at h <;> simp [h]

theorem validate_bbox_ok {v : JVal} {o : Option (List ℚ)}
    (h : validate_bbox v = .ok o) :
    o = none ∨ ∃ l, o = some l ∧ v = .qlist l ∧ l.length = 4 ∧ ∀ x ∈ l, 0 ≤ x := by
  cases v <;> simp [validate_bbox] at h
  · simp [h]
  · rename_i l
    split at h
    · cases h; rename_i hc; exact Or.inr ⟨l, rfl, rfl, hc.1, hc.2⟩
    · cases h

theorem validate_segmentation_ok {v : JVal} {o : Option Seg}
    (h : validate_segmentation v = .ok o) :
    o = none ∨
    (∃ ps, o = some (.poly ps) ∧ v = .seg (.poly ps) ∧
      ∀ p ∈ ps, p.length % 2 = 0 ∧ 6 ≤ p.length) ∨
    (∃ c z, o = some (.rle c z) ∧ v = .seg (.rle c z)) := by
  cases v <;> simp [validate_segmentation] at h
  · simp [h]
  · rename_i sg
    cases sg with
    | poly ps =>
      simp [validate_segmentation] at h
      split at h
      · cases h; rename_i hc; exact Or.inr (Or.inl ⟨ps, rfl, rfl, hc⟩)
      · cases h
    | rle c z =>
      simp [validate_segmentation] at h
      cases h
      exact Or.inr (Or.inr ⟨c, z, rfl, rfl⟩)

theorem validate_area_ok {v : JVal} {o : Option ℚ}
    (h : validate_area v = .ok o) :
    o = none ∨ ∃ a, o = some a ∧ 0 ≤ a := by
  cases v <;> simp [validate_area] at h
  · simp [h]
  · rename_i a; split at h
    · cases h; rename_i hc; exact Or.inr ⟨a, rfl, hc⟩
    · cases h
  · rename_i n; split at h
    · cases h; rename_i hc; exact Or.inr ⟨(n : ℚ), rfl, by exact_mod_cast hc⟩
    · cases h

theorem validate_keypoints_ok {v : JVal} {o : Option (List ℚ)}
    (h : validate_keypoints v = .ok o) :
    o = none ∨ ∃ l, o = some l ∧ v = .qlist l ∧ kpOk l = true := by
  cases v <;> simp [validate_keypoints] at h
  · simp [h]
  · rename_i l; split at h
    · cases h; rename_i hc; exact Or.inr ⟨l, rfl, rfl, hc⟩
    · cases h

theorem validate_num_keypoints_ok {v : JVal} {o : Option Int}
    (h : validate_num_keypoints v = .ok o) :
    o = none ∨ ∃ n, o = some n ∧ 0 ≤ n := by
  cases v <;> simp [validate_num_keypoints] at h
  · simp [h]
  · rename_i n; split at h
    · cases h; rename_i hc; exact Or.inr ⟨n, rfl, hc⟩
    · cases h

theorem validate_caption_ok {v : JVal} {o : Option String}
    (h : validate_caption v = .ok o) :
    o = none ∨ ∃ c, o = some c ∧ v = .s c ∧ c ≠ "" := by
  cases v <;> simp [validate_caption] at h
  · simp [h]
  · rename_i c; split at h
    · cases h
    · cases h; rename_i hc; exact Or.inr ⟨c, rfl, rfl, hc⟩

theorem validate_value_ok {v : JVal} {o : Option ℚ}
    (h : validate_value v = .ok o) :
    o = none ∨ ∃ a, o = some a := by
  cases v <;> simp [validate_value] at h <;> simp [← h]

theorem validate_iscrowd_ok {v : JVal} {o : Option Int}
    (h : validate_iscrowd v = .ok o) :
    o = none ∨ ∃ n, o = some n ∧ (n = 0 ∨ n = 1) := by
  cases v <;> simp [validate_iscrowd] at h
  · simp [h]
  · rename_i n; split at h
    · cases h; rename_i hc; exact Or.inr ⟨n, rfl, hc⟩
    · cases h

theorem validate_score_ok {v : JVal} {o : Option ℚ}
    (h : validate_score v = .ok o) :
    o = none ∨ ∃ a, o = some a ∧ 0 ≤ a ∧ a ≤ 1 := by
  cases v <;> simp [validate_score] at h
  · simp [h]
  · rename_i a; split at h
    · cases h; rename_i hc; exact Or.inr ⟨a, rfl, hc⟩
    · cases h
  · rename_i n; split at h
    · cases h; rename_i hc
      exact Or.inr ⟨(n : ℚ), rfl, by exact_mod_cast hc.1, by exact_mod_cast hc.2⟩
    · cases h

theorem validate_is_prediction_ok {v : JVal} {o : Option Bool}
    (h : validate_is_prediction v = .ok o) :
    o = none ∨ ∃ b, o = some b ∧ v = .b b := by
  cases v <;> simp [validate_is_prediction] at h <;> simp [h]

@[simp] theorem pure_bind_ex {ε α β : Type} (a : α) (f : α → Except ε β) :
    (pure a : Except ε α) >>= f = f a := rfl

@[simp] theorem pure_eq_ok {ε α : Type} (a : α) :
    (pure a : Except ε α) = Except.ok a := rfl

theorem sdv_ok {r0 r : AnnotationInfo} (h : set_default_values r0 = .ok r) :
    r.task = r0.task ∧ r.image_id = r0.image_id ∧ r.category_id = r0.category_id ∧
    r.segmentation = r0.segmentation ∧ r.keypoints = r0.keypoints ∧
    r.caption = r0.caption ∧ r.value = r0.value ∧ r.score = r0.score ∧
    (∀ b, r0.bbox = some b → r.bbox = some b) ∧
    (r0.bbox = none → r0.segmentation = none → r.bbox = none) ∧
    (∀ s, r0.bbox = none → r0.segmentation = some s →
      ∃ bb, get_segmentation_box s SegmentationType.POLYGON = .ok bb ∧ r.bbox = some bb) ∧
    (∀ a, r0.area = some a → r.area = some a) ∧
    (∀ s, r0.area = none → r0.segmentation = some s →
      ∃ a, get_segmentation_area s SegmentationType.POLYGON = .ok a ∧ r.area = some a) ∧
    (r0.area = none → r0.segmentation = none → ∀ bb, r.bbox = some bb →
      ∃ a, get_box_area bb BoxType.XYWH = .ok a ∧ r.area = some a) ∧
    (r0.area = none → r0.segmentation = none → r.bbox = none → r.area = none) ∧
    (r.iscrowd = if r0.iscrowd = none ∧ r.bbox.isSome then some 0 else r0.iscrowd) ∧
    (r.num_keypoints = if r0.num_keypoints = none
      then r0.keypoints.map (fun ks => ((ks.length / 3 : Nat) : Int))
      else r0.num_keypoints) ∧
    (r.is_prediction = if r0.score.isSome then some true else r0.is_prediction) := by
  unfold set_default_values at h
  rcases hb : r0.bbox with _ | b <;> rcases hs : r0.segmentation with _ | s <;>
    simp only [hb, hs, pure_bind_ex, ok_map, error_map, ok_bind, error_bind] at h
  case none.none =>
    rcases ha : r0.area with _ | a <;>
      simp only [ha, pure_bind_ex, ok_map, error_map, ok_bind, error_bind] at h <;>
      cases h <;> simp_all
  case none.some =>
    rcases hg : get_segmentation_box s SegmentationType.POLYGON with e | bb <;>
      simp only [hg, pure_bind_ex, ok_map, error_map, ok_bind, error_bind] at h
    · exact Except.noConfusion h
    rcases ha : r0.area with _ | a <;>
      simp only [ha, pure_bind_ex, ok_map, error_map, ok_bind, error_bind] at h
    · rcases hga : get_segmentation_area s SegmentationType.POLYGON with e | a <;>
        simp only [hga, pure_bind_ex, ok_map, error_map, ok_bind, error_bind] at h
      · exact Except.noConfusion h
      cases h; simp_all
    · cases h; simp_all
  case some.none =>
    rcases ha : r0.area with _ | a <;>
      simp only [ha, pure_bind_ex, ok_map, error_map, ok_bind, error_bind] at h
    · rcases hga : get_box_area b BoxType.XYWH with e | a <;>
        simp only [hga, pure_bind_ex, ok_map, error_map, ok_bind, error_bind] at h
      · exact Except.noConfusion h
      cases h; simp_all
    · cases h; simp_all
  case some.some =>
    rcases ha : r0.area with _ | a <;>
      simp only [ha, pure_bind_ex, ok_map, error_map, ok_bind, error_bind] at h
    · rcases hga : get_segmentation_area s SegmentationType.POLYGON with e | a <;>
        simp only [hga, pure_bind_ex, ok_map, error_map, ok_bind, error_bind] at h
      · exact Except.noConfusion h
      cases h; simp_all
    · cases h; simp_all

theorem construct_ok_decomp {t : TaskType} {raw : RawInfo} {r : AnnotationInfo}
    (h : construct t raw = .ok r) :
    ∃ ii ci bb sg ar kp nk cp vl ic sc ip,
      decodeStr "image_id" raw.image_id = .ok ii ∧
      decodeStr "category_id" raw.category_id = .ok ci ∧
      validate_bbox raw.bbox = .ok bb ∧
      validate_segmentation raw.segmentation = .ok sg ∧
      validate_area raw.area = .ok ar ∧
      validate_keypoints raw.keypoints = .ok kp ∧
      validate_num_keypoints raw.num_keypoints = .ok nk ∧
      validate_caption raw.caption = .ok cp ∧
      validate_value raw.value = .ok vl ∧
      validate_iscrowd raw.iscrowd = .ok ic ∧
      validate_score raw.score = .ok sc ∧
      validate_is_prediction raw.is_prediction = .ok ip ∧
      set_default_values
        ⟨t, ii, ci, bb, sg, ar, kp, nk, cp, vl, ic, sc, ip⟩ = .ok r ∧
      (extra_required_fields t).find? (fun f => isNullField r f) = none := by
  unfold construct at h
  rcases h1 : decodeStr "image_id" raw.image_id with e | ii <;>
    simp only [h1, ok_bind, error_bind] at h
  · exact Except.noConfusion h
  rcases h2 : decodeStr "category_id" raw.category_id with e | ci <;>
    simp only [h2, ok_bind, error_bind] at h
  · exact Except.noConfusion h
  rcases h3 : validate_bbox raw.bbox with e | bb <;>
    simp only [h3, ok_bind, error_bind] at h
  · exact Except.noConfusion h
  rcases h4 : validate_segmentation raw.segmentation with e | sg <;>
    simp only [h4, ok_bind, error_bind] at h
  · exact Except.noConfusion h
  rcases h5 : validate_area raw.area with e | ar <;>
    simp only [h5, ok_bind, error_bind] at h
  · exact Except.noConfusion h
  rcases h6 : validate_keypoints raw.keypoints with e | kp <;>
    simp only [h6, ok_bind, error_bind] at h
  · exact Except.noConfusion h
  rcases h7 : validate_num_keypoints raw.num_keypoints with e | nk <;>
    simp only [h7, ok_bind, error_bind] at h
  · exact Except.noConfusion h
  rcases h8 : validate_caption raw.caption with e | cp <;>
    simp only [h8, ok_bind, error_bind] at h
  · exact Except.noConfusion h
  rcases h9 : validate_value raw.value with e | vl <;>
    simp only [h9, ok_bind, error_bind] at h
  · exact Except.noConfusion h
  rcases h10 : validate_iscrowd raw.iscrowd with e | ic <;>
    simp only [h10, ok_bind, error_bind] at h
  · exact Except.noConfusion h
  rcases h11 : validate_score raw.score with e | sc <;>
    simp only [h11, ok_bind, error_bind] at h
  · exact Except.noConfusion h
  rcases h12 : validate_is_prediction raw.is_prediction with e | ip <;>
    simp only [h12, ok_bind, error_bind] at h
  · exact Except.noConfusion h
  rcases h13 : set_default_values
      ⟨t, ii, ci, bb, sg, ar, kp, nk, cp, vl, ic, sc, ip⟩ with e | r' <;>
    simp only [h13, ok_bind, error_bind] at h
  · exact Except.noConfusion h
  rcases h14 : (extra_required_fields t).find? (fun f => isNullField r' f) with _ | f <;>
    simp only [h14] at h
  · cases h
    refine ⟨ii, ci, bb, sg, ar, kp, nk, cp, vl, ic, sc, ip,
      ?_, ?_, ?_, ?_, ?_, ?_, ?_, ?_, ?_, ?_, ?_, ?_, ?_, ?_⟩ <;>
      first
        | rfl
        | exact h1 | exact h2 | exact h3 | exact h4 | exact h5 | exact h6
        | exact h7 | exact h8 | exact h9 | exact h10 | exact h11 | exact h12
        | exact h13 | exact h14
  · exact Except.noConfusion h

theorem decodeStr_none (f : String) : decodeStr f .null = .ok none := rfl

theorem decodeStr_some (f s : String) : decodeStr f (.s s) = .ok (some s) := rfl

theorem validate_bbox_some {l : List ℚ} (h4 : l.length = 4) (hnn : ∀ x ∈ l, 0 ≤ x) :
    validate_bbox (.qlist l) = .ok (some l) := by
  simp only [validate_bbox]; rw [if_pos ⟨h4, hnn⟩]

theorem validate_segmentation_poly {ps : List (List ℚ)}
    (h : ∀ p ∈ ps, p.length % 2 = 0 ∧ 6 ≤ p.length) :
    validate_segmentation (.seg (.poly ps)) = .ok (some (.poly ps)) := by
  simp only [validate_segmentation]; rw [if_pos h]

theorem validate_segmentation_rle (c z : List Nat) :
    validate_segmentation (.seg (.rle c z)) = .ok (some (.rle c z)) := rfl

theorem validate_area_some {a : ℚ} (h : 0 ≤ a) :
    validate_area (.q a) = .ok (some a) := by
  simp only [validate_area]; rw [if_pos h]

theorem validate_keypoints_some {l : List ℚ} (h : kpOk l = true) :
    validate_keypoints (.qlist l) = .ok (some l) := by
  simp only [validate_keypoints]; rw [if_pos h]

theorem validate_num_keypoints_some {n : Int} (h : 0 ≤ n) :
    validate_num_keypoints (.i n) = .ok (some n) := by
  simp only [validate_num_keypoints]; rw [if_pos h]

theorem validate_caption_some {c : String} (h : c ≠ "") :
    validate_caption (.s c) = .ok (some c) := by
  simp only [validate_caption]; rw [if_neg h]

theorem validate_value_some (a : ℚ) : validate_value (.q a) = .ok (some a) := rfl

theorem validate_iscrowd_some {n : Int} (h : n = 0 ∨ n = 1) :
    validate_iscrowd (.i n) = .ok (some n) := by
  simp only [validate_iscrowd]; rw [if_pos h]

theorem validate_score_some {a : ℚ} (h0 : 0 ≤ a) (h1 : a ≤ 1) :
    validate_score (.q a) = .ok (some a) := by
  simp only [validate_score]; rw [if_pos ⟨h0, h1⟩]

theorem validate_is_prediction_b (v : Bool) :
    validate_is_prediction (.b v) = .ok (some v) := rfl

theorem sdv_noop {r : AnnotationInfo}
    (hb : r.segmentation.isSome = true → r.bbox.isSome = true)
    (ha : r.area = none → r.segmentation = none ∧ r.bbox = none)
    (hic : r.iscrowd = none → r.bbox = none)
    (hnk : r.num_keypoints = none → r.keypoints = none)
    (hip : r.score.isSome = true → r.is_prediction = some true) :
    set_default_values r = .ok r := by
  obtain ⟨t, ii, ci, bb, sg, ar, kp, nk, cp, vl, ic, sc, ip⟩ := r
  rcases bb with _ | b <;> rcases sg with _ | s <;> rcases ar with _ | a <;>
    rcases ic with _ | icv <;> rcases nk with _ | nkv <;> rcases kp with _ | kpv <;>
    rcases sc with _ | scv <;> simp_all [set_default_values]

theorem polyAreaOne_nonneg (p : List ℚ) : 0 ≤ polyAreaOne p := by
  unfold polyAreaOne
  split
  · exact le_refl 0
  · positivity

theorem polyArea_nonneg (ps : List (List ℚ)) : 0 ≤ polyArea ps := by
  unfold polyArea
  refine List.sum_nonneg ?_
  intro a ha
  obtain ⟨p, _, rfl⟩ := List.mem_map.mp ha
  exact polyAreaOne_nonneg p

theorem get_box_area_nonneg {l : List ℚ} {A : ℚ} (hln : ∀ x ∈ l, 0 ≤ x)
    (h : get_box_area l BoxType.XYWH = .ok A) : 0 ≤ A := by
  unfold get_box_area at h
  rcases l with _ | ⟨x, _ | ⟨y, _ | ⟨w, _ | ⟨z, _ | _⟩⟩⟩⟩ <;> simp only at h <;>
    try exact Except.noConfusion h
  split at h
  · exact Except.noConfusion h
  · cases h
    exact mul_nonneg (hln w (by simp)) (hln z (by simp))

theorem rebuild_cls (id id' i c : String) (sc : Option ℚ)
    (hsc : ∀ a, sc = some a → 0 ≤ a ∧ a ≤ 1) :
    from_mapping id' .CLASSIFICATION (to_mapping ⟨id,
      ⟨.CLASSIFICATION, some i, some c, none, none, none, none, none, none, none,
        none, sc, some sc.isSome⟩⟩)
    = .ok ⟨id', ⟨.CLASSIFICATION, some i, some c, none, none, none, none, none,
        none, none, none, sc, some sc.isSome⟩⟩ := by
  rcases sc with _ | a
  · simp [from_mapping, to_mapping, encodeOpt, call_task, keysOk, factoryParams,
      mandatoryParams, hasKw, lookupKw, getKw, rawOfKw, runFactory, classification,
      construct, decodeStr, validate_bbox, validate_segmentation, validate_area,
      validate_keypoints, validate_num_keypoints, validate_caption, validate_value,
      validate_iscrowd, validate_score, validate_is_prediction, set_default_values,
      extra_required_fields, isNullField]
  · obtain ⟨ha0, ha1⟩ := hsc a rfl
    simp [from_mapping, to_mapping, encodeOpt, call_task, keysOk, factoryParams,
      mandatoryParams, hasKw, lookupKw, getKw, rawOfKw, runFactory, classification,
      construct, decodeStr, validate_bbox, validate_segmentation, validate_area,
      validate_keypoints, validate_num_keypoints, validate_caption, validate_value,
      validate_iscrowd, validate_score_some ha0 ha1, validate_is_prediction,
      set_default_values, extra_required_fields, isNullField]

theorem rebuild_od (id id' i c : String) (l : List ℚ) (A : ℚ) (icv : Int)
    (sc : Option ℚ)
    (hl : validate_bbox (.qlist l) = .ok (some l))
    (hA : 0 ≤ A)
    (hic : icv = 0 ∨ icv = 1)
    (hsc : ∀ a, sc = some a → 0 ≤ a ∧ a ≤ 1) :
    from_mapping id' .OBJECT_DETECTION (to_mapping ⟨id,
      ⟨.OBJECT_DETECTION, some i, some c, some l, none, some A, none, none, none,
        none, some icv, sc, some sc.isSome⟩⟩)
    = .ok ⟨id', ⟨.OBJECT_DETECTION, some i, some c, some l, none, some A, none,
        none, none, none, some icv, sc, some sc.isSome⟩⟩ := by
  rcases sc with _ | a
  · simp [from_mapping, to_mapping, encodeOpt, call_task, keysOk, factoryParams,
      mandatoryParams, hasKw, lookupKw, getKw, rawOfKw, runFactory, object_detection,
      construct, decodeStr, hl, validate_segmentation, validate_area_some hA,
      validate_keypoints, validate_num_keypoints, validate_caption, validate_value,
      validate_iscrowd_some hic, validate_score, validate_is_prediction,
      set_default_values, extra_required_fields, isNullField]
  · obtain ⟨ha0, ha1⟩ := hsc a rfl
    simp [from_mapping, to_mapping, encodeOpt, call_task, keysOk, factoryParams,
      mandatoryParams, hasKw, lookupKw, getKw, rawOfKw, runFactory, object_detection,
      construct, decodeStr, hl, validate_segmentation, validate_area_some hA,
      validate_keypoints, validate_num_keypoints, validate_caption, validate_value,
      validate_iscrowd_some hic, validate_score_some ha0 ha1, validate_is_prediction,
      set_default_values, extra_required_fields, isNullField]

theorem rebuild_ss (id id' i c : String) (l : List ℚ) (sgv : Seg) (A : ℚ)
    (icv : Int) (sc : Option ℚ)
    (hl : validate_bbox (.qlist l) = .ok (some l))
    (hsg : validate_segmentation (.seg sgv) = .ok (some sgv))
    (hA : 0 ≤ A)
    (hic : icv = 0 ∨ icv = 1)
    (hsc : ∀ a, sc = some a → 0 ≤ a ∧ a ≤ 1) :
    from_mapping id' .SEMANTIC_SEGMENTATION (to_mapping ⟨id,
      ⟨.SEMANTIC_SEGMENTATION, some i, some c, some l, some sgv, some A, none,
        none, none, none, some icv, sc, some sc.isSome⟩⟩)
    = .ok ⟨id', ⟨.SEMANTIC_SEGMENTATION, some i, some c, some l, some sgv, some A,
        none, none, none, none, some icv, sc, some sc.isSome⟩⟩ := by
  rcases sc with _ | a
  · simp [from_mapping, to_mapping, encodeOpt, call_task, keysOk, factoryParams,
      mandatoryParams, hasKw, lookupKw, getKw, rawOfKw, runFactory,
      semantic_segmentation, construct, decodeStr, hl, hsg, validate_area_some hA,
      validate_keypoints, validate_num_keypoints, validate_caption, validate_value,
      validate_iscrowd_some hic, validate_score, validate_is_prediction,
      set_default_values, extra_required_fields, isNullField]
  · obtain ⟨ha0, ha1⟩ := hsc a rfl
    simp [from_mapping, to_mapping, encodeOpt, call_task, keysOk, factoryParams,
      mandatoryParams, hasKw, lookupKw, getKw, rawOfKw, runFactory,
      semantic_segmentation, construct, decodeStr, hl, hsg, validate_area_some hA,
      validate_keypoints, validate_num_keypoints, validate_caption, validate_value,
      validate_iscrowd_some hic, validate_score_some ha0 ha1, validate_is_prediction,
      set_default_values, extra_required_fields, isNullField]

theorem rebuild_is (id id' i c : String) (l : List ℚ) (sgv : Seg) (A : ℚ)
    (icv : Int) (sc : Option ℚ)
    (hl : validate_bbox (.qlist l) = .ok (some l))
    (hsg : validate_segmentation (.seg sgv) = .ok (some sgv))
    (hA : 0 ≤ A)
    (hic : icv = 0 ∨ icv = 1)
    (hsc : ∀ a, sc = some a → 0 ≤ a ∧ a ≤ 1) :
    from_mapping id' .INSTANCE_SEGMENTATION (to_mapping ⟨id,
      ⟨.INSTANCE_SEGMENTATION, some i, some c, some l, some sgv, some A, none,
        none, none, none, some icv, sc, some sc.isSome⟩⟩)
    = .ok ⟨id', ⟨.INSTANCE_SEGMENTATION, some i, some c, some l, some sgv, some A,
        none, none, none, none, some icv, sc, some sc.isSome⟩⟩ := by
  rcases sc with _ | a
  · simp [from_mapping, to_mapping, encodeOpt, call_task, keysOk, factoryParams,
      mandatoryParams, hasKw, lookupKw, getKw, rawOfKw, runFactory,
      instance_segmentation, construct, decodeStr, hl, hsg, validate_area_some hA,
      validate_keypoints, validate_num_keypoints, validate_caption, validate_value,
      validate_iscrowd_some hic, validate_score, validate_is_prediction,
      set_default_values, extra_required_fields, isNullField]
  · obtain ⟨ha0, ha1⟩ := hsc a rfl
    simp [from_mapping, to_mapping, encodeOpt, call_task, keysOk, factoryParams,
      mandatoryParams, hasKw, lookupKw, getKw, rawOfKw, runFactory,
      instance_segmentation, construct, decodeStr, hl, hsg, validate_area_some hA,
      validate_keypoints, validate_num_keypoints, validate_caption, validate_value,
      validate_iscrowd_some hic, validate_score_some ha0 ha1, validate_is_prediction,
      set_default_values, extra_required_fields, isNullField]

set_option maxHeartbeats 1600000 in
theorem rebuild_kd (id id' i c : String) (l kps : List ℚ) (sgO : Option Seg)
    (A : ℚ) (n : Int) (icv : Int) (sc : Option ℚ)
    (hl : validate_bbox (.qlist l) = .ok (some l))
    (hkp : kpOk kps = true)
    (hsg : ∀ sgv, sgO = some sgv → validate_segmentation (.seg sgv) = .ok (some sgv))
    (hA : 0 ≤ A)
    (hn : 0 ≤ n)
    (hic : icv = 0 ∨ icv = 1)
    (hsc : ∀ a, sc = some a → 0 ≤ a ∧ a ≤ 1) :
    from_mapping id' .KEYPOINT_DETECTION (to_mapping ⟨id,
      ⟨.KEYPOINT_DETECTION, some i, some c, some l, sgO, some A, some kps, some n,
        none, none, some icv, sc, some sc.isSome⟩⟩)
    = .ok ⟨id', ⟨.KEYPOINT_DETECTION, some i, some c, some l, sgO, some A,
        some kps, some n, none, none, some icv, sc, some sc.isSome⟩⟩ := by
  rcases sc with _ | a <;> rcases sgO with _ | sgv
  · simp [from_mapping, to_mapping, encodeOpt, call_task, keysOk, factoryParams,
      mandatoryParams, hasKw, lookupKw, getKw, rawOfKw, runFactory,
      keypoint_detection, construct, decodeStr, hl, validate_segmentation,
      validate_area_some hA, validate_keypoints_some hkp,
      validate_num_keypoints_some hn, validate_caption, validate_value,
      validate_iscrowd_some hic, validate_score, validate_is_prediction,
      set_default_values, extra_required_fields, isNullField]
  · have hsgv := hsg sgv rfl
    simp [from_mapping, to_mapping, encodeOpt, call_task, keysOk, factoryParams,
      mandatoryParams, hasKw, lookupKw, getKw, rawOfKw, runFactory,
      keypoint_detection, construct, decodeStr, hl, hsgv,
      validate_area_some hA, validate_keypoints_some hkp,
      validate_num_keypoints_some hn, validate_caption, validate_value,
      validate_iscrowd_some hic, validate_score, validate_is_prediction,
      set_default_values, extra_required_fields, isNullField]
  · obtain ⟨ha0, ha1⟩ := hsc a rfl
    simp [from_mapping, to_mapping, encodeOpt, call_task, keysOk, factoryParams,
      mandatoryParams, hasKw, lookupKw, getKw, rawOfKw, runFactory,
      keypoint_detection, construct, decodeStr, hl, validate_segmentation,
      validate_area_some hA, validate_keypoints_some hkp,
      validate_num_keypoints_some hn, validate_caption, validate_value,
      validate_iscrowd_some hic, validate_score_some ha0 ha1, validate_is_prediction,
      set_default_values, extra_required_fields, isNullField]
  · obtain ⟨ha0, ha1⟩ := hsc a rfl
    have hsgv := hsg sgv rfl
    simp [from_mapping, to_mapping, encodeOpt, call_task, keysOk, factoryParams,
      mandatoryParams, hasKw, lookupKw, getKw, rawOfKw, runFactory,
      keypoint_detection, construct, decodeStr, hl, hsgv,
      validate_area_some hA, validate_keypoints_some hkp,
      validate_num_keypoints_some hn, validate_caption, validate_value,
      validate_iscrowd_some hic, validate_score_some ha0 ha1, validate_is_prediction,
      set_default_values, extra_required_fields, isNullField]

theorem rebuild_reg (id id' i c : String) (v : ℚ) :
    from_mapping id' .REGRESSION (to_mapping ⟨id,
      ⟨.REGRESSION, some i, some c, none, none, none, none, none, none, some v,
        none, none, some false⟩⟩)
    = .ok ⟨id', ⟨.REGRESSION, some i, some c, none, none, none, none, none, none,
        some v, none, none, some false⟩⟩ := by
  simp [from_mapping, to_mapping, encodeOpt, call_task, keysOk, factoryParams,
    mandatoryParams, hasKw, lookupKw, getKw, rawOfKw, runFactory, regression,
    construct, decodeStr, validate_bbox, validate_segmentation, validate_area,
    validate_keypoints, validate_num_keypoints, validate_caption, validate_value,
    validate_iscrowd, validate_score, validate_is_prediction, set_default_values,
    extra_required_fields, isNullField]

theorem rebuild_tr (id id' i c cap : String) (sc : Option ℚ)
    (hcap : cap ≠ "")
    (hsc : ∀ a, sc = some a → 0 ≤ a ∧ a ≤ 1) :
    from_mapping id' .TEXT_RECOGNITION (to_mapping ⟨id,
      ⟨.TEXT_RECOGNITION, some i, some c, none, none, none, none, none, some cap,
        none, none, sc, some sc.isSome⟩⟩)
    = .ok ⟨id', ⟨.TEXT_RECOGNITION, some i, some c, none, none, none, none, none,
        some cap, none, none, sc, some sc.isSome⟩⟩ := by
  rcases sc with _ | a
  · simp [from_mapping, to_mapping, encodeOpt, call_task, keysOk, factoryParams,
      mandatoryParams, hasKw, lookupKw, getKw, rawOfKw, runFactory, text_recognition,
      construct, decodeStr, validate_bbox, validate_segmentation, validate_area,
      validate_keypoints, validate_num_keypoints, validate_caption_some hcap,
      validate_value, validate_iscrowd, validate_score, validate_is_prediction,
      set_default_values, extra_required_fields, isNullField]
  · obtain ⟨ha0, ha1⟩ := hsc a rfl
    simp [from_mapping, to_mapping, encodeOpt, call_task, keysOk, factoryParams,
      mandatoryParams, hasKw, lookupKw, getKw, rawOfKw, runFactory, text_recognition,
      construct, decodeStr, validate_bbox, validate_segmentation, validate_area,
      validate_keypoints, validate_num_keypoints, validate_caption_some hcap,
      validate_value, validate_iscrowd, validate_score_some ha0 ha1, validate_is_prediction,
      set_default_values, extra_required_fields, isNullField]

set_option maxHeartbeats 2000000 in
theorem roundtrip_cls {raw : RawInfo} {info : AnnotationInfo} (id id' : String)
    (h : runFactory .CLASSIFICATION raw = .ok info) :
    from_mapping id' .CLASSIFICATION (to_mapping ⟨id, info⟩) = .ok ⟨id', info⟩ := by
  simp only [runFactory, classification] at h
  obtain ⟨ii, ci, bb, sg, ar, kp, nk, cp, vl, ic, sc, ip,
    h1, h2, h3, h4, h5, h6, h7, h8, h9, h10, h11, h12, h13, h14⟩ := construct_ok_decomp h
  simp only [validate_bbox, validate_segmentation, validate_area, validate_keypoints,
    validate_num_keypoints, validate_caption, validate_value, validate_iscrowd,
    validate_is_prediction, Except.ok.injEq] at h3 h4 h5 h6 h7 h8 h9 h10 h12
  subst h3 h4 h5 h6 h7 h8 h9 h10 h12
  obtain ⟨ht, hii, hci, hsg2, hkp2, hcp2, hvl2, hsc2, hbbS, hbbN, hbbD,
    harS, harSeg, harBox, harN, hicE, hnkE, hipE⟩ := sdv_ok h13
  rw [List.find?_eq_none] at h14
  have hIm := h14 "image_id" (by simp [extra_required_fields])
  have hCm := h14 "category_id" (by simp [extra_required_fields])
  rcases ii with _ | i
  · exact absurd (by simp [isNullField, hii]) hIm
  rcases ci with _ | c
  · exact absurd (by simp [isNullField, hci]) hCm
  have hbF : info.bbox = none := hbbN rfl rfl
  have haF : info.area = none := harN rfl rfl hbF
  have hicF : info.iscrowd = none := by simp [hicE, hbF]
  have hnkF : info.num_keypoints = none := by simp [hnkE]
  have hscB : ∀ b, sc = some b → 0 ≤ b ∧ b ≤ 1 := by
    intro b hb
    rcases validate_score_ok h11 with h' | ⟨a', ha', h0, h1'⟩
    · rw [h'] at hb; exact Option.noConfusion hb
    · rw [ha'] at hb; cases hb; exact ⟨h0, h1'⟩
  have hipF : info.is_prediction = some sc.isSome := by
    rcases sc with _ | a <;> simp [hipE]
  obtain ⟨t', g1, g2, g3, g4, g5, g6, g7, g8, g9, g10, g11, g12⟩ := info
  simp only at ht hii hci hsg2 hkp2 hcp2 hvl2 hsc2 hbF haF hicF hnkF hipF
  subst ht hii hci hsg2 hkp2 hcp2 hvl2 hsc2 hbF haF hicF hnkF hipF
  exact rebuild_cls id id' i c _ hscB

set_option maxHeartbeats 2000000 in
theorem roundtrip_od {raw : RawInfo} {info : AnnotationInfo} (id id' : String)
    (h : runFactory .OBJECT_DETECTION raw = .ok info) :
    from_mapping id' .OBJECT_DETECTION (to_mapping ⟨id, info⟩) = .ok ⟨id', info⟩ := by
  simp only [runFactory, object_detection] at h
  obtain ⟨ii, ci, bb, sg, ar, kp, nk, cp, vl, ic, sc, ip,
    h1, h2, h3, h4, h5, h6, h7, h8, h9, h10, h11, h12, h13, h14⟩ := construct_ok_decomp h
  simp only [validate_segmentation, validate_keypoints, validate_num_keypoints,
    validate_caption, validate_value, validate_is_prediction, Except.ok.injEq]
    at h4 h6 h7 h8 h9 h12
  subst h4 h6 h7 h8 h9 h12
  obtain ⟨ht, hii, hci, hsg2, hkp2, hcp2, hvl2, hsc2, hbbS, hbbN, hbbD,
    harS, harSeg, harBox, harN, hicE, hnkE, hipE⟩ := sdv_ok h13
  rw [List.find?_eq_none] at h14
  have hIm := h14 "image_id" (by simp [extra_required_fields])
  have hCm := h14 "category_id" (by simp [extra_required_fields])
  have hBm := h14 "bbox" (by simp [extra_required_fields])
  rcases ii with _ | i
  · exact absurd (by simp [isNullField, hii]) hIm
  rcases ci with _ | c
  · exact absurd (by simp [isNullField, hci]) hCm
  rcases bb with _ | l
  · exact absurd (by simp [isNullField, hbbN rfl rfl]) hBm
  have hbF : info.bbox = some l := hbbS l rfl
  have hlv : l.length = 4 ∧ ∀ x ∈ l, 0 ≤ x := by
    rcases validate_bbox_ok h3 with h' | ⟨l', hsome, _, hl4, hln⟩
    · exact absurd h' (by simp)
    · cases hsome; exact ⟨hl4, hln⟩
  have hAex : ∃ A, 0 ≤ A ∧ info.area = some A := by
    rcases ar with _ | a
    · obtain ⟨A, hga, haF⟩ := harBox rfl rfl l hbF
      exact ⟨A, get_box_area_nonneg hlv.2 hga, haF⟩
    · rcases validate_area_ok h5 with h' | ⟨a', ha', h0⟩
      · exact absurd h' (by simp)
      · cases ha'; exact ⟨a, h0, harS a rfl⟩
  obtain ⟨A, hA0, haF⟩ := hAex
  have hicex : ∃ j, (j = 0 ∨ j = 1) ∧ info.iscrowd = some j := by
    rcases ic with _ | icv
    · exact ⟨0, Or.inl rfl, by simp [hicE, hbF]⟩
    · refine ⟨icv, ?_, by simp [hicE]⟩
      rcases validate_iscrowd_ok h10 with h' | ⟨n, hn, hP⟩
      · exact absurd h' (by simp)
      · cases hn; exact hP
  obtain ⟨j, hj, hicF⟩ := hicex
  have hscB : ∀ b, sc = some b → 0 ≤ b ∧ b ≤ 1 := by
    intro b hb
    rcases validate_score_ok h11 with h' | ⟨a', ha', h0, h1'⟩
    · rw [h'] at hb; exact Option.noConfusion hb
    · rw [ha'] at hb; cases hb; exact ⟨h0, h1'⟩
  have hnkF : info.num_keypoints = none := by simp [hnkE]
  have hipF : info.is_prediction = some sc.isSome := by
    rcases sc with _ | a <;> simp [hipE]
  obtain ⟨t', g1, g2, g3, g4, g5, g6, g7, g8, g9, g10, g11, g12⟩ := info
  simp only at ht hii hci hsg2 hkp2 hcp2 hvl2 hsc2 hbF haF hicF hnkF hipF
  subst ht hii hci hsg2 hkp2 hcp2 hvl2 hsc2 hbF haF hicF hnkF hipF
  exact rebuild_od id id' i c l A j _ (validate_bbox_some hlv.1 hlv.2) hA0 hj hscB

set_option maxHeartbeats 2000000 in
theorem roundtrip_ss {raw : RawInfo} {info : AnnotationInfo} (id id' : String)
    (h : runFactory .SEMANTIC_SEGMENTATION raw = .ok info)
    (hB : ∀ l, info.bbox = some l → l.length = 4 ∧ ∀ x ∈ l, 0 ≤ x) :
    from_mapping id' .SEMANTIC_SEGMENTATION (to_mapping ⟨id, info⟩)
    = .ok ⟨id', info⟩ := by
  simp only [runFactory, semantic_segmentation] at h
  obtain ⟨ii, ci, bb, sg, ar, kp, nk, cp, vl, ic, sc, ip,
    h1, h2, h3, h4, h5, h6, h7, h8, h9, h10, h11, h12, h13, h14⟩ := construct_ok_decomp h
  simp only [validate_keypoints, validate_num_keypoints, validate_caption,
    validate_value, validate_is_prediction, Except.ok.injEq] at h6 h7 h8 h9 h12
  subst h6 h7 h8 h9 h12
  obtain ⟨ht, hii, hci, hsg2, hkp2, hcp2, hvl2, hsc2, hbbS, hbbN, hbbD,
    harS, harSeg, harBox, harN, hicE, hnkE, hipE⟩ := sdv_ok h13
  rw [List.find?_eq_none] at h14
  have hIm := h14 "image_id" (by simp [extra_required_fields])
  have hCm := h14 "category_id" (by simp [extra_required_fields])
  have hSm := h14 "segmentation" (by simp [extra_required_fields])
  rcases ii with _ | i
  · exact absurd (by simp [isNullField, hii]) hIm
  rcases ci with _ | c
  · exact absurd (by simp [isNullField, hci]) hCm
  rcases sg with _ | sgv
  · exact absurd (by simp [isNullField, hsg2]) hSm
  have hsgv : validate_segmentation (.seg sgv) = .ok (some sgv) := by
    rcases validate_segmentation_ok h4 with h' | ⟨ps, hps, _, hwf⟩ | ⟨cz, z, hsome, _⟩
    · exact absurd h' (by simp)
    · cases hps; exact validate_segmentation_poly hwf
    · cases hsome; exact validate_segmentation_rle _ _
  have hbbF : ∃ l, info.bbox = some l := by
    rcases bb with _ | l
    · obtain ⟨bb', _, hF⟩ := hbbD sgv rfl rfl
      exact ⟨bb', hF⟩
    · exact ⟨l, hbbS l rfl⟩
  obtain ⟨l, hbF⟩ := hbbF
  obtain ⟨hl4, hln⟩ := hB l hbF
  have hAex : ∃ A, 0 ≤ A ∧ info.area = some A := by
    rcases ar with _ | a
    · obtain ⟨A, hga, hF⟩ := harSeg sgv rfl rfl
      refine ⟨A, ?_, hF⟩
      rcases sgv with ps | ⟨cz, z⟩
      · simp only [get_segmentation_area, Except.ok.injEq] at hga
        rw [← hga]; exact polyArea_nonneg ps
      · simp [get_segmentation_area] at hga
    · rcases validate_area_ok h5 with h' | ⟨a', ha', h0⟩
      · exact absurd h' (by simp)
      · cases ha'; exact ⟨a, h0, harS a rfl⟩
  obtain ⟨A, hA0, haF⟩ := hAex
  have hicex : ∃ j, (j = 0 ∨ j = 1) ∧ info.iscrowd = some j := by
    rcases ic with _ | icv
    · exact ⟨0, Or.inl rfl, by simp [hicE, hbF]⟩
    · refine ⟨icv, ?_, by simp [hicE]⟩
      rcases validate_iscrowd_ok h10 with h' | ⟨n, hn, hP⟩
      · exact absurd h' (by simp)
      · cases hn; exact hP
  obtain ⟨j, hj, hicF⟩ := hicex
  have hscB : ∀ b, sc = some b → 0 ≤ b ∧ b ≤ 1 := by
    intro b hb
    rcases validate_score_ok h11 with h' | ⟨a', ha', h0, h1'⟩
    · rw [h'] at hb; exact Option.noConfusion hb
    · rw [ha'] at hb; cases hb; exact ⟨h0, h1'⟩
  have hnkF : info.num_keypoints = none := by simp [hnkE]
  have hipF : info.is_prediction = some sc.isSome := by
    rcases sc with _ | a <;> simp [hipE]
  obtain ⟨t', g1, g2, g3, g4, g5, g6, g7, g8, g9, g10, g11, g12⟩ := info
  simp only at ht hii hci hsg2 hkp2 hcp2 hvl2 hsc2 hbF haF hicF hnkF hipF
  subst ht hii hci hsg2 hkp2 hcp2 hvl2 hsc2 hbF haF hicF hnkF hipF
  exact rebuild_ss id id' i c l sgv A j _ (validate_bbox_some hl4 hln) hsgv hA0 hj hscB

set_option maxHeartbeats 2000000 in
theorem roundtrip_is {raw : RawInfo} {info : AnnotationInfo} (id id' : String)
    (h : runFactory .INSTANCE_SEGMENTATION raw = .ok info)
    (hB : ∀ l, info.bbox = some l → l.length = 4 ∧ ∀ x ∈ l, 0 ≤ x) :
    from_mapping id' .INSTANCE_SEGMENTATION (to_mapping ⟨id, info⟩)
    = .ok ⟨id', info⟩ := by
  simp only [runFactory, instance_segmentation] at h
  obtain ⟨ii, ci, bb, sg, ar, kp, nk, cp, vl, ic, sc, ip,
    h1, h2, h3, h4, h5, h6, h7, h8, h9, h10, h11, h12, h13, h14⟩ := construct_ok_decomp h
  simp only [validate_keypoints, validate_num_keypoints, validate_caption,
    validate_value, validate_is_prediction, Except.ok.injEq] at h6 h7 h8 h9 h12
  subst h6 h7 h8 h9 h12
  obtain ⟨ht, hii, hci, hsg2, hkp2, hcp2, hvl2, hsc2, hbbS, hbbN, hbbD,
    harS, harSeg, harBox, harN, hicE, hnkE, hipE⟩ := sdv_ok h13
  rw [List.find?_eq_none] at h14
  have hIm := h14 "image_id" (by simp [extra_required_fields])
  have hCm := h14 "category_id" (by simp [extra_required_fields])
  have hSm := h14 "segmentation" (by simp [extra_required_fields])
  rcases ii with _ | i
  · exact absurd (by simp [isNullField, hii]) hIm
  rcases ci with _ | c
  · exact absurd (by simp [isNullField, hci]) hCm
  rcases sg with _ | sgv
  · exact absurd (by simp [isNullField, hsg2]) hSm
  have hsgv : validate_segmentation (.seg sgv) = .ok (some sgv) := by
    rcases validate_segmentation_ok h4 with h' | ⟨ps, hps, _, hwf⟩ | ⟨cz, z, hsome, _⟩
    · exact absurd h' (by simp)
    · cases hps; exact validate_segmentation_poly hwf
    · cases hsome; exact validate_segmentation_rle _ _
  have hbbF : ∃ l, info.bbox = some l := by
    rcases bb with _ | l
    · obtain ⟨bb', _, hF⟩ := hbbD sgv rfl rfl
      exact ⟨bb', hF⟩
    · exact ⟨l, hbbS l rfl⟩
  obtain ⟨l, hbF⟩ := hbbF
  obtain ⟨hl4, hln⟩ := hB l hbF
  have hAex : ∃ A, 0 ≤ A ∧ info.area = some A := by
    rcases ar with _ | a
    · obtain ⟨A, hga, hF⟩ := harSeg sgv rfl rfl
      refine ⟨A, ?_, hF⟩
      rcases sgv with ps | ⟨cz, z⟩
      · simp only [get_segmentation_area, Except.ok.injEq] at hga
        rw [← hga]; exact polyArea_nonneg ps
      · simp [get_segmentation_area] at hga
    · rcases validate_area_ok h5 with h' | ⟨a', ha', h0⟩
      · exact absurd h' (by simp)
      · cases ha'; exact ⟨a, h0, harS a rfl⟩
  obtain ⟨A, hA0, haF⟩ := hAex
  have hicex : ∃ j, (j = 0 ∨ j = 1) ∧ info.iscrowd = some j := by
    rcases ic with _ | icv
    · exact ⟨0, Or.inl rfl, by simp [hicE, hbF]⟩
    · refine ⟨icv, ?_, by simp [hicE]⟩
      rcases validate_iscrowd_ok h10 with h' | ⟨n, hn, hP⟩
      · exact absurd h' (by simp)
      · cases hn; exact hP
  obtain ⟨j, hj, hicF⟩ := hicex
  have hscB : ∀ b, sc = some b → 0 ≤ b ∧ b ≤ 1 := by
    intro b hb
    rcases validate_score_ok h11 with h' | ⟨a', ha', h0, h1'⟩
    · rw [h'] at hb; exact Option.noConfusion hb
    · rw [ha'] at hb; cases hb; exact ⟨h0, h1'⟩
  have hnkF : info.num_keypoints = none := by simp [hnkE]
  have hipF : info.is_prediction = some sc.isSome := by
    rcases sc with _ | a <;> simp [hipE]
  obtain ⟨t', g1, g2, g3, g4, g5, g6, g7, g8, g9, g10, g11, g12⟩ := info
  simp only at ht hii hci hsg2 hkp2 hcp2 hvl2 hsc2 hbF haF hicF hnkF hipF
  subst ht hii hci hsg2 hkp2 hcp2 hvl2 hsc2 hbF haF hicF hnkF hipF
  exact rebuild_is id id' i c l sgv A j _ (validate_bbox_some hl4 hln) hsgv hA0 hj hscB

set_option maxHeartbeats 2000000 in
theorem roundtrip_kd {raw : RawInfo} {info : AnnotationInfo} (id id' : String)
    (h : runFactory .KEYPOINT_DETECTION raw = .ok info)
    (hmb : info.bbox ≠ none)
    (hB : ∀ l, info.bbox = some l → l.length = 4 ∧ ∀ x ∈ l, 0 ≤ x) :
    from_mapping id' .KEYPOINT_DETECTION (to_mapping ⟨id, info⟩)
    = .ok ⟨id', info⟩ := by
  simp only [runFactory, keypoint_detection] at h
  obtain ⟨ii, ci, bb, sg, ar, kp, nk, cp, vl, ic, sc, ip,
    h1, h2, h3, h4, h5, h6, h7, h8, h9, h10, h11, h12, h13, h14⟩ := construct_ok_decomp h
  simp only [validate_caption, validate_value, validate_is_prediction,
    Except.ok.injEq] at h8 h9 h12
  subst h8 h9 h12
  obtain ⟨ht, hii, hci, hsg2, hkp2, hcp2, hvl2, hsc2, hbbS, hbbN, hbbD,
    harS, harSeg, harBox, harN, hicE, hnkE, hipE⟩ := sdv_ok h13
  rw [List.find?_eq_none] at h14
  have hIm := h14 "image_id" (by simp [extra_required_fields])
  have hCm := h14 "category_id" (by simp [extra_required_fields])
  have hKm := h14 "keypoints" (by simp [extra_required_fields])
  rcases ii with _ | i
  · exact absurd (by simp [isNullField, hii]) hIm
  rcases ci with _ | c
  · exact absurd (by simp [isNullField, hci]) hCm
  rcases kp with _ | kps
  · exact absurd (by simp [isNullField, hkp2]) hKm
  have hkpv : kpOk kps = true := by
    rcases validate_keypoints_ok h6 with h' | ⟨l', hsome, _, hk⟩
    · exact absurd h' (by simp)
    · cases hsome; exact hk
  have hsgv : ∀ sgv, sg = some sgv →
      validate_segmentation (.seg sgv) = .ok (some sgv) := by
    intro sgv hs
    rcases validate_segmentation_ok h4 with h' | ⟨ps, hps, _, hwf⟩ | ⟨cz, z, hsome, _⟩
    · rw [h'] at hs; exact Option.noConfusion hs
    · rw [hps] at hs; cases hs; exact validate_segmentation_poly hwf
    · rw [hsome] at hs; cases hs; exact validate_segmentation_rle _ _
  have hbbF : ∃ l, info.bbox = some l := by
    rcases hb : info.bbox with _ | l
    · exact absurd hb hmb
    · exact ⟨l, rfl⟩
  obtain ⟨l, hbF⟩ := hbbF
  obtain ⟨hl4, hln⟩ := hB l hbF
  have hAex : ∃ A, 0 ≤ A ∧ info.area = some A := by
    rcases ar with _ | a
    · rcases sg with _ | sgv
      · obtain ⟨A, hga, hF⟩ := harBox rfl rfl l hbF
        exact ⟨A, get_box_area_nonneg hln hga, hF⟩
      · obtain ⟨A, hga, hF⟩ := harSeg sgv rfl rfl
        refine ⟨A, ?_, hF⟩
        rcases sgv with ps | ⟨cz, z⟩
        · simp only [get_segmentation_area, Except.ok.injEq] at hga
          rw [← hga]; exact polyArea_nonneg ps
        · simp [get_segmentation_area] at hga
    · rcases validate_area_ok h5 with h' | ⟨a', ha', h0⟩
      · exact absurd h' (by simp)
      · cases ha'; exact ⟨a, h0, harS a rfl⟩
  obtain ⟨A, hA0, haF⟩ := hAex
  have hnkex : ∃ n, (0 : Int) ≤ n ∧ info.num_keypoints = some n := by
    rcases nk with _ | n
    · exact ⟨((kps.length / 3 : Nat) : Int), Int.natCast_nonneg _, by simp [hnkE]⟩
    · refine ⟨n, ?_, by simp [hnkE]⟩
      rcases validate_num_keypoints_ok h7 with h' | ⟨n', hn', h0⟩
      · exact absurd h' (by simp)
      · cases hn'; exact h0
  obtain ⟨n, hn0, hnkF⟩ := hnkex
  have hicex : ∃ j, (j = 0 ∨ j = 1) ∧ info.iscrowd = some j := by
    rcases ic with _ | icv
    · exact ⟨0, Or.inl rfl, by simp [hicE, hbF]⟩
    · refine ⟨icv, ?_, by simp [hicE]⟩
      rcases validate_iscrowd_ok h10 with h' | ⟨n', hn', hP⟩
      · exact absurd h' (by simp)
      · cases hn'; exact hP
  obtain ⟨j, hj, hicF⟩ := hicex
  have hscB : ∀ b, sc = some b → 0 ≤ b ∧ b ≤ 1 := by
    intro b hb
    rcases validate_score_ok h11 with h' | ⟨a', ha', h0, h1'⟩
    · rw [h'] at hb; exact Option.noConfusion hb
    · rw [ha'] at hb; cases hb; exact ⟨h0, h1'⟩
  have hipF : info.is_prediction = some sc.isSome := by
    rcases sc with _ | a <;> simp [hipE]
  obtain ⟨t', g1, g2, g3, g4, g5, g6, g7, g8, g9, g10, g11, g12⟩ := info
  simp only at ht hii hci hsg2 hkp2 hcp2 hvl2 hsc2 hbF haF hicF hnkF hipF
  subst ht hii hci hsg2 hkp2 hcp2 hvl2 hsc2 hbF haF hicF hnkF hipF
  exact rebuild_kd id id' i c l kps _ A n j _
    (validate_bbox_some hl4 hln) hkpv hsgv hA0 hn0 hj hscB

set_option maxHeartbeats 2000000 in
theorem roundtrip_reg {raw : RawInfo} {info : AnnotationInfo} (id id' : String)
    (h : runFactory .REGRESSION raw = .ok info) :
    from_mapping id' .REGRESSION (to_mapping ⟨id, info⟩) = .ok ⟨id', info⟩ := by
  simp only [runFactory, regression] at h
  obtain ⟨ii, ci, bb, sg, ar, kp, nk, cp, vl, ic, sc, ip,
    h1, h2, h3, h4, h5, h6, h7, h8, h9, h10, h11, h12, h13, h14⟩ := construct_ok_decomp h
  simp only [validate_bbox, validate_segmentation, validate_area, validate_keypoints,
    validate_num_keypoints, validate_caption, validate_iscrowd, validate_score,
    validate_is_prediction, Except.ok.injEq] at h3 h4 h5 h6 h7 h8 h10 h11 h12
  subst h3 h4 h5 h6 h7 h8 h10 h11 h12
  obtain ⟨ht, hii, hci, hsg2, hkp2, hcp2, hvl2, hsc2, hbbS, hbbN, hbbD,
    harS, harSeg, harBox, harN, hicE, hnkE, hipE⟩ := sdv_ok h13
  rw [List.find?_eq_none] at h14
  have hIm := h14 "image_id" (by simp [extra_required_fields])
  have hCm := h14 "category_id" (by simp [extra_required_fields])
  have hVm := h14 "value" (by simp [extra_required_fields])
  rcases ii with _ | i
  · exact absurd (by simp [isNullField, hii]) hIm
  rcases ci with _ | c
  · exact absurd (by simp [isNullField, hci]) hCm
  rcases vl with _ | v
  · exact absurd (by simp [isNullField, hvl2]) hVm
  have hbF : info.bbox = none := hbbN rfl rfl
  have haF : info.area = none := harN rfl rfl hbF
  have hicF : info.iscrowd = none := by simp [hicE, hbF]
  have hnkF : info.num_keypoints = none := by simp [hnkE]
  have hipF : info.is_prediction = some false := by simp [hipE]
  obtain ⟨t', g1, g2, g3, g4, g5, g6, g7, g8, g9, g10, g11, g12⟩ := info
  simp only at ht hii hci hsg2 hkp2 hcp2 hvl2 hsc2 hbF haF hicF hnkF hipF
  subst ht hii hci hsg2 hkp2 hcp2 hvl2 hsc2 hbF haF hicF hnkF hipF
  exact rebuild_reg id id' i c v

set_option maxHeartbeats 2000000 in
theorem roundtrip_tr {raw : RawInfo} {info : AnnotationInfo} (id id' : String)
    (h : runFactory .TEXT_RECOGNITION raw = .ok info)
    (hmc : info.category_id ≠ none) :
    from_mapping id' .TEXT_RECOGNITION (to_mapping ⟨id, info⟩) = .ok ⟨id', info⟩ := by
  simp only [runFactory, text_recognition] at h
  obtain ⟨ii, ci, bb, sg, ar, kp, nk, cp, vl, ic, sc, ip,
    h1, h2, h3, h4, h5, h6, h7, h8, h9, h10, h11, h12, h13, h14⟩ := construct_ok_decomp h
  simp only [validate_bbox, validate_segmentation, validate_area, validate_keypoints,
    validate_num_keypoints, validate_value, validate_iscrowd,
    validate_is_prediction, Except.ok.injEq] at h3 h4 h5 h6 h7 h9 h10 h12
  subst h3 h4 h5 h6 h7 h9 h10 h12
  obtain ⟨ht, hii, hci, hsg2, hkp2, hcp2, hvl2, hsc2, hbbS, hbbN, hbbD,
    harS, harSeg, harBox, harN, hicE, hnkE, hipE⟩ := sdv_ok h13
  rw [List.find?_eq_none] at h14
  have hIm := h14 "image_id" (by simp [extra_required_fields])
  have hCapm := h14 "caption" (by simp [extra_required_fields])
  rcases ii with _ | i
  · exact absurd (by simp [isNullField, hii]) hIm
  rcases ci with _ | c
  · exact absurd hci hmc
  rcases cp with _ | cap
  · exact absurd (by simp [isNullField, hcp2]) hCapm
  have hcapne : cap ≠ "" := by
    rcases validate_caption_ok h8 with h' | ⟨c', hsome, _, hne⟩
    · exact absurd h' (by simp)
    · cases hsome; exact hne
  have hbF : info.bbox = none := hbbN rfl rfl
  have haF : info.area = none := harN rfl rfl hbF
  have hicF : info.iscrowd = none := by simp [hicE, hbF]
  have hnkF : info.num_keypoints = none := by simp [hnkE]
  have hscB : ∀ b, sc = some b → 0 ≤ b ∧ b ≤ 1 := by
    intro b hb
    rcases validate_score_ok h11 with h' | ⟨a', ha', h0, h1'⟩
    · rw [h'] at hb; exact Option.noConfusion hb
    · rw [ha'] at hb; cases hb; exact ⟨h0, h1'⟩
  have hipF : info.is_prediction = some sc.isSome := by
    rcases sc with _ | a <;> simp [hipE]
  obtain ⟨t', g1, g2, g3, g4, g5, g6, g7, g8, g9, g10, g11, g12⟩ := info
  simp only at ht hii hci hsg2 hkp2 hcp2 hvl2 hsc2 hbF haF hicF hnkF hipF
  subst ht hii hci hsg2 hkp2 hcp2 hvl2 hsc2 hbF haF hicF hnkF hipF
  exact rebuild_tr id id' i c cap _ hcapne hscB

/-! ## Claim theorems -/

/-- Claim C4: omitting the `image_id` keyword entirely from a
`classification` call raises the language-level missing-argument error
(`TypeError`), while passing `image_id=None` explicitly passes validation and
derivation and then fails the required-field check with
`FieldMissingError("image_id")`; the two failure modes are distinct. -/
theorem C4_theorem :
    call_classification [("category_id", .s "test")] = .error .typeError ∧
    call_classification [("image_id", .null), ("category_id", .s "test")]
      = .error (.fieldMissing "image_id") ∧
    Err.typeError ≠ Err.fieldMissing "image_id" := by
  with_unfolding_all decide

/-- Claim C10: every keyword call of `keypoint_detection` that does not
supply `bbox` is the language-level missing-argument error, even though the
required-field table entry for KEYPOINT_DETECTION lists only `image_id`,
`category_id` and `keypoints` — `bbox` is not among the task's required
fields. -/
theorem C10_theorem :
    (∀ kw : KwArgs, lookupKw kw "bbox" = none →
      call_keypoint_detection kw = .error .typeError) ∧
    extra_required_fields .KEYPOINT_DETECTION = ["image_id", "category_id", "keypoints"] ∧
    "bbox" ∉ extra_required_fields .KEYPOINT_DETECTION := by
  refine ⟨?_, rfl, by decide⟩
  intro kw hkw
  have hb : hasKw kw "bbox" = false := by simp [hasKw, hkw]
  simp [call_keypoint_detection, call_task, mandatoryParams, hb]

/-- Claim C10 witness: a concrete keyword call supplying `image_id`,
`category_id` and `keypoints` but no `bbox` raises `TypeError`. -/
theorem C10_witness :
    call_keypoint_detection
      [("image_id", .s "t"), ("category_id", .s "t"), ("keypoints", .qlist [0, 0, 0])]
      = .error .typeError :=
  C10_theorem.1
    [("image_id", .s "t"), ("category_id", .s "t"), ("keypoints", .qlist [0, 0, 0])]
    (by with_unfolding_all decide)

/-- Claim C6: the instance-segmentation scenario
`instance_segmentation(image_id="test", category_id="test",
segmentation=[[0,0,1,0,1,1,0,1]], score=0.5)` produces a record whose mapping
form, with `id` removed, carries the derived `bbox [0,0,1,1]`, `area 1`,
`iscrowd 0`, the supplied `score 0.5` and `is_prediction true`. -/
theorem C6_theorem :
    instance_segmentation (.s "test") (.s "test")
      (.seg (.poly [[0, 0, 1, 0, 1, 1, 0, 1]])) .null .null (.i 0) (.q (mkRat 1 2))
    = .ok ⟨.INSTANCE_SEGMENTATION, some "test", some "test", some [0, 0, 1, 1],
        some (.poly [[0, 0, 1, 0, 1, 1, 0, 1]]), some 1, none, none, none, none,
        some 0, some (mkRat 1 2), some true⟩ ∧
    (let m := (to_mapping ⟨"x", ⟨.INSTANCE_SEGMENTATION, some "test", some "test",
        some [0, 0, 1, 1], some (.poly [[0, 0, 1, 0, 1, 1, 0, 1]]), some 1, none,
        none, none, none, some 0, some (mkRat 1 2), some true⟩⟩).filter
          (fun p => p.1 != "id")
     lookupKw m "bbox" = some (.qlist [0, 0, 1, 1]) ∧
     lookupKw m "area" = some (.q 1) ∧
     lookupKw m "iscrowd" = some (.i 0) ∧
     lookupKw m "score" = some (.q (mkRat 1 2)) ∧
     lookupKw m "is_prediction" = some (.b true)) := by
  with_unfolding_all decide

/-- Claim C9: the derivation pipeline passes `SegmentationType.POLYGON` to
`get_segmentation_box` and `get_segmentation_area` unconditionally
(annotation_info.py lines 100 and 104), so deriving a missing bbox or a
missing area from an RLE segmentation applies the polygon-format routine to
the RLE value and fails instead of decoding the mask. -/
theorem C9_theorem :
    (∀ (r : AnnotationInfo) (c z : List Nat), r.bbox = none →
      r.segmentation = some (.rle c z) →
      set_default_values r = .error .geometryError) ∧
    (∀ (r : AnnotationInfo) (c z : List Nat) (l : List ℚ), r.bbox = some l →
      r.area = none → r.segmentation = some (.rle c z) →
      set_default_values r = .error .geometryError) ∧
    (∀ c z, get_segmentation_box (.rle c z) SegmentationType.POLYGON
      = .error .geometryError) ∧
    (∀ c z, get_segmentation_area (.rle c z) SegmentationType.POLYGON
      = .error .geometryError) := by
  refine ⟨?_, ?_, fun c z => rfl, fun c z => rfl⟩
  · intro r c z hb hs
    simp [set_default_values, hb, hs, get_segmentation_box]
  · intro r c z l hb ha hs
    simp [set_default_values, hb, ha, hs, get_segmentation_area]

/-- Claim C9 witness: constructing an instance-segmentation record from an
RLE segmentation without a bbox fails with the geometry error of the
polygon-format routine. -/
theorem C9_witness :
    set_default_values ⟨.INSTANCE_SEGMENTATION, some "t", some "t", none,
      some (.rle [1, 2] [3, 4]), none, none, none, none, none, some 0, none,
      some false⟩ = .error .geometryError :=
  C9_theorem.1 _ [1, 2] [3, 4] rfl rfl

/-- Claim C7 counterexample: the claim says supplying `area="asdf"` to ANY
task factory raises `FieldValidationError`, but the `classification` factory
has no `area` parameter at all, so the same keyword call fails with the
language-level unexpected-keyword `TypeError` instead. -/
theorem C7_counterexample :
    call_classification
      [("image_id", .s "test"), ("category_id", .s "test"), ("area", .s "asdf")]
      = .error .typeError ∧
    Err.typeError ≠ Err.fieldValidation "area" := by
  with_unfolding_all decide

/-- Claim C7 (amended): supplying `area="asdf"` to any task factory whose
signature has an `area` parameter (`object_detection`,
`semantic_segmentation`, `instance_segmentation`, `keypoint_detection`)
fails with `FieldValidationError` naming `area`, not with a generic type
error distinct from it. -/
theorem C7_theorem (i c : String) :
    object_detection (.s i) (.s c) (.qlist [0, 0, 1, 1]) (.s "asdf") (.i 0) .null
      = .error (.fieldValidation "area") ∧
    semantic_segmentation (.s i) (.s c) (.seg (.poly [[0, 0, 1, 0, 1, 1, 0, 1]]))
      .null (.s "asdf") (.i 0) .null = .error (.fieldValidation "area") ∧
    instance_segmentation (.s i) (.s c) (.seg (.poly [[0, 0, 1, 0, 1, 1, 0, 1]]))
      .null (.s "asdf") (.i 0) .null = .error (.fieldValidation "area") ∧
    keypoint_detection (.s i) (.s c) (.qlist [0, 0, 0]) (.qlist [0, 0, 1, 1])
      .null (.s "asdf") .null (.i 0) .null = .error (.fieldValidation "area") := by
  refine ⟨?_, ?_, ?_, ?_⟩ <;>
    simp [object_detection, semantic_segmentation, instance_segmentation,
      keypoint_detection, construct, decodeStr, validate_bbox,
      validate_segmentation, validate_area]

/-- Claim C7 witness: the amended claim at `image_id="test"`,
`category_id="test"`. -/
theorem C7_witness :
    object_detection (.s "test") (.s "test") (.qlist [0, 0, 1, 1]) (.s "asdf")
      (.i 0) .null = .error (.fieldValidation "area") ∧
    semantic_segmentation (.s "test") (.s "test")
      (.seg (.poly [[0, 0, 1, 0, 1, 1, 0, 1]])) .null (.s "asdf") (.i 0) .null
      = .error (.fieldValidation "area") ∧
    instance_segmentation (.s "test") (.s "test")
      (.seg (.poly [[0, 0, 1, 0, 1, 1, 0, 1]])) .null (.s "asdf") (.i 0) .null
      = .error (.fieldValidation "area") ∧
    keypoint_detection (.s "test") (.s "test") (.qlist [0, 0, 0])
      (.qlist [0, 0, 1, 1]) .null (.s "asdf") .null (.i 0) .null
      = .error (.fieldValidation "area") :=
  C7_theorem "test" "test"

/-- Claim C1 counterexample: for keypoints `[0,0,0, 1,1,2]` (two triples, one
with visibility 0 and one with visibility 2), the derived `num_keypoints` is
2 — the total triple count `len // 3` — while the count of triples with
visibility above zero is 1, so the derived value is not the visibility
filtered count the claim states. -/
theorem C1_counterexample :
    keypoint_detection (.s "t") (.s "t") (.qlist [0, 0, 0, 1, 1, 2])
      (.qlist [0, 0, 1, 1]) .null .null .null (.i 0) .null
    = .ok ⟨.KEYPOINT_DETECTION, some "t", some "t", some [0, 0, 1, 1], none,
        some 1, some [0, 0, 0, 1, 1, 2], some 2, none, none, some 0, none,
        some false⟩ ∧
    visibleKeypointCount [0, 0, 0, 1, 1, 2] = 1 ∧
    ((2 : Int) ≠ ((1 : Nat) : Int)) := by
  with_unfolding_all decide

/-- Claim C1 (amended): for every record built by a task factory with
keypoints present and `num_keypoints` omitted (null), the derived
`num_keypoints` is the total keypoint triple count `len(keypoints) // 3`,
with no visibility filtering (annotation_info.py lines 111 and 112). -/
theorem C1_theorem (id : String) (t : TaskType) (raw : RawInfo)
    (r : IdentifiedInfo) (ks : List ℚ)
    (hbuild : buildFactory id t raw = .ok r)
    (hnull : raw.num_keypoints = .null)
    (hkp : r.info.keypoints = some ks) :
    r.info.num_keypoints = some ((ks.length / 3 : Nat) : Int) := by
  obtain ⟨xid, info⟩ := r
  have h : runFactory t raw = .ok info := by
    rcases hr : runFactory t raw with e | info' <;>
      simp only [buildFactory, hr, error_map, ok_map] at hbuild
    · exact Except.noConfusion hbuild
    · cases hbuild; rfl
  simp only at hkp ⊢
  cases t <;>
    simp only [runFactory, classification, object_detection, semantic_segmentation,
      instance_segmentation, keypoint_detection, regression, text_recognition] at h <;>
    obtain ⟨ii, ci, bb, sg, ar, kp, nk, cp, vl, ic, sc, ip,
      h1, h2, h3, h4, h5, h6, h7, h8, h9, h10, h11, h12, h13, h14⟩ :=
        construct_ok_decomp h <;>
    obtain ⟨ht, hii, hci, hsg2, hkp2, hcp2, hvl2, hsc2, hbbS, hbbN, hbbD,
      harS, harSeg, harBox, harN, hicE, hnkE, hipE⟩ := sdv_ok h13 <;>
    simp only [hnull, validate_num_keypoints, Except.ok.injEq] at h7 <;>
    (try subst h7) <;>
    have hk2 : kp = some ks := by simpa using hkp2.symm.trans hkp
  all_goals simp [hnkE, hk2]

/-- Claim C1 witness: the amended claim at the concrete keypoint-detection
build with six keypoint coordinates (two triples). -/
theorem C1_witness :
    (⟨"a", ⟨.KEYPOINT_DETECTION, some "t", some "t", some [0, 0, 1, 1], none,
      some 1, some [0, 0, 0, 1, 1, 2], some 2, none, none, some 0, none,
      some false⟩⟩ : IdentifiedInfo).info.num_keypoints
    = some ((([0, 0, 0, 1, 1, 2] : List ℚ).length / 3 : Nat) : Int) :=
  C1_theorem "a" .KEYPOINT_DETECTION
    { image_id := .s "t", category_id := .s "t",
      keypoints := .qlist [0, 0, 0, 1, 1, 2], bbox := .qlist [0, 0, 1, 1],
      iscrowd := .i 0 }
    _ [0, 0, 0, 1, 1, 2] (by with_unfolding_all decide) rfl rfl

/-- Claim C5: the derivation pipeline of `set_default_values`, in its fixed
order, with each step firing only when its target is still null: a null bbox
is derived from a present segmentation with the polygon-format routine and a
non-null bbox is preserved; a null area comes from the segmentation when one
is present, else from the bbox left by step one, and a non-null area is
preserved; iscrowd becomes 0 exactly when it was null and a bbox is present
after step one; num_keypoints is filled from the keypoints only when null;
is_prediction becomes true whenever a score is present. -/
theorem C5_theorem {r0 r : AnnotationInfo} (h : set_default_values r0 = .ok r) :
    ((∀ s, r0.bbox = none → r0.segmentation = some s →
        ∃ bb, get_segmentation_box s SegmentationType.POLYGON = .ok bb ∧
          r.bbox = some bb) ∧
      (r0.bbox = none → r0.segmentation = none → r.bbox = none) ∧
      (r0.bbox ≠ none → r.bbox = r0.bbox)) ∧
    ((∀ s, r0.area = none → r0.segmentation = some s →
        ∃ a, get_segmentation_area s SegmentationType.POLYGON = .ok a ∧
          r.area = some a) ∧
      (r0.area = none → r0.segmentation = none → ∀ bb, r.bbox = some bb →
        ∃ a, get_box_area bb BoxType.XYWH = .ok a ∧ r.area = some a) ∧
      (r0.area = none → r0.segmentation = none → r.bbox = none → r.area = none) ∧
      (r0.area ≠ none → r.area = r0.area)) ∧
    (r.iscrowd = if r0.iscrowd = none ∧ r.bbox.isSome then some 0 else r0.iscrowd) ∧
    (r.num_keypoints = if r0.num_keypoints = none
      then r0.keypoints.map (fun ks => ((ks.length / 3 : Nat) : Int))
      else r0.num_keypoints) ∧
    (r.is_prediction = if r0.score.isSome then some true else r0.is_prediction) := by
  obtain ⟨ht, hii, hci, hsg2, hkp2, hcp2, hvl2, hsc2, hbbS, hbbN, hbbD,
    harS, harSeg, harBox, harN, hicE, hnkE, hipE⟩ := sdv_ok h
  refine ⟨⟨hbbD, hbbN, ?_⟩, ⟨harSeg, harBox, harN, ?_⟩, hicE, hnkE, hipE⟩
  · intro hne
    rcases hbx : r0.bbox with _ | b
    · exact absurd hbx hne
    · rw [hbbS b hbx]
  · intro hne
    rcases hax : r0.area with _ | a
    · exact absurd hax hne
    · rw [harS a hax]

/-- Claim C5 witness: the pipeline at a concrete record with a unit-square
polygon segmentation and every derivable attribute null. -/
theorem C5_witness :
    (set_default_values ⟨.INSTANCE_SEGMENTATION, some "t", some "t", none,
      some (.poly [[0, 0, 1, 0, 1, 1, 0, 1]]), none, none, none, none, none,
      none, none, some false⟩
    = .ok ⟨.INSTANCE_SEGMENTATION, some "t", some "t", some [0, 0, 1, 1],
      some (.poly [[0, 0, 1, 0, 1, 1, 0, 1]]), some 1, none, none, none, none,
      some 0, none, some false⟩) ∧
    (∃ bb, get_segmentation_box (.poly [[0, 0, 1, 0, 1, 1, 0, 1]])
        SegmentationType.POLYGON = .ok bb ∧
      (⟨.INSTANCE_SEGMENTATION, some "t", some "t", some [0, 0, 1, 1],
        some (.poly [[0, 0, 1, 0, 1, 1, 0, 1]]), some 1, none, none, none, none,
        some 0, none, some false⟩ : AnnotationInfo).bbox = some bb) := by
  have h : set_default_values ⟨.INSTANCE_SEGMENTATION, some "t", some "t", none,
      some (.poly [[0, 0, 1, 0, 1, 1, 0, 1]]), none, none, none, none, none,
      none, none, some false⟩
    = .ok ⟨.INSTANCE_SEGMENTATION, some "t", some "t", some [0, 0, 1, 1],
      some (.poly [[0, 0, 1, 0, 1, 1, 0, 1]]), some 1, none, none, none, none,
      some 0, none, some false⟩ := by with_unfolding_all decide
  exact ⟨h, (C5_theorem h).1.1 (.poly [[0, 0, 1, 0, 1, 1, 0, 1]]) rfl rfl⟩

/-- Claim C3: record equality excludes exactly the surrogate id — two records
built from identical factory arguments in different calls (distinct generated
ids) are equal; equality holds precisely when every other attribute agrees;
and a record pair differing in `image_id` is never equal. -/
theorem C3_theorem :
    (∀ (t : TaskType) (raw : RawInfo) (id1 id2 : String) r1 r2,
      buildFactory id1 t raw = .ok r1 → buildFactory id2 t raw = .ok r2 →
      eqExceptId r1 r2) ∧
    (∀ a b : IdentifiedInfo, eqExceptId a b ↔
      (a.info.task = b.info.task ∧ a.info.image_id = b.info.image_id ∧
       a.info.category_id = b.info.category_id ∧ a.info.bbox = b.info.bbox ∧
       a.info.segmentation = b.info.segmentation ∧ a.info.area = b.info.area ∧
       a.info.keypoints = b.info.keypoints ∧
       a.info.num_keypoints = b.info.num_keypoints ∧
       a.info.caption = b.info.caption ∧ a.info.value = b.info.value ∧
       a.info.iscrowd = b.info.iscrowd ∧ a.info.score = b.info.score ∧
       a.info.is_prediction = b.info.is_prediction)) ∧
    (∀ a b : IdentifiedInfo, a.info.image_id ≠ b.info.image_id →
      ¬ eqExceptId a b) := by
  refine ⟨?_, ?_, ?_⟩
  · intro t raw id1 id2 r1 r2 h1 h2
    rcases hr : runFactory t raw with e | info <;>
      simp only [buildFactory, hr, error_map, ok_map] at h1 h2
    · exact Except.noConfusion h1
    · cases h1; cases h2; exact rfl
  · intro a b
    constructor
    · intro h
      have h' : a.info = b.info := h
      rw [h']
      exact ⟨rfl, rfl, rfl, rfl, rfl, rfl, rfl, rfl, rfl, rfl, rfl, rfl, rfl⟩
    · intro hc
      obtain ⟨aid, ainfo⟩ := a
      obtain ⟨bid, binfo⟩ := b
      obtain ⟨⟩ := ainfo
      obtain ⟨⟩ := binfo
      show AnnotationInfo.mk _ _ _ _ _ _ _ _ _ _ _ _ _
        = AnnotationInfo.mk _ _ _ _ _ _ _ _ _ _ _ _ _
      simp only [AnnotationInfo.mk.injEq]
      exact hc
  · intro a b hne h
    exact hne (congrArg AnnotationInfo.image_id h)

/-- Claim C3 witness: two classification builds from the same arguments with
distinct generated ids compare equal. -/
theorem C3_witness :
    eqExceptId
      ⟨"a", ⟨.CLASSIFICATION, some "test", some "test", none, none, none, none,
        none, none, none, none, none, some false⟩⟩
      ⟨"b", ⟨.CLASSIFICATION, some "test", some "test", none, none, none, none,
        none, none, none, none, none, some false⟩⟩ :=
  C3_theorem.1 .CLASSIFICATION
    { image_id := .s "test", category_id := .s "test" } "a" "b" _ _
    (by with_unfolding_all decide) (by with_unfolding_all decide)

/-- Claim C8: the `UpdateAnnotationInfo` constructor accepts any subset of
fields — the all-null call succeeds with every field left null — and on
success each stored field is exactly the output of the same per-field
validator that `AnnotationInfo` wires (`validate_bbox`, `validate_area`,
...): absent fields stay null, supplied valid fields are stored unchanged,
and no derivation pipeline and no required-field check runs (the constructor
consists of the validators alone). -/
theorem C8_theorem :
    (construct_update {} = .ok
      ⟨none, none, none, none, none, none, none, none, none, none, none⟩) ∧
    (∀ (raw : RawUpdate) (u : UpdateAnnotationInfo), construct_update raw = .ok u →
      decodeStr "category_id" raw.category_id = .ok u.category_id ∧
      validate_bbox raw.bbox = .ok u.bbox ∧
      validate_segmentation raw.segmentation = .ok u.segmentation ∧
      validate_area raw.area = .ok u.area ∧
      validate_keypoints raw.keypoints = .ok u.keypoints ∧
      validate_num_keypoints raw.num_keypoints = .ok u.num_keypoints ∧
      validate_caption raw.caption = .ok u.caption ∧
      validate_value raw.value = .ok u.value ∧
      validate_iscrowd raw.iscrowd = .ok u.iscrowd ∧
      validate_score raw.score = .ok u.score ∧
      validate_is_prediction raw.is_prediction = .ok u.is_prediction) := by
  refine ⟨rfl, ?_⟩
  intro raw u h
  unfold construct_update at h
  rcases h1 : decodeStr "category_id" raw.category_id with e | ci <;>
    simp only [h1, ok_bind, error_bind] at h
  · exact Except.noConfusion h
  rcases h2 : validate_bbox raw.bbox with e | bb <;>
    simp only [h2, ok_bind, error_bind] at h
  · exact Except.noConfusion h
  rcases h3 : validate_segmentation raw.segmentation with e | sg <;>
    simp only [h3, ok_bind, error_bind] at h
  · exact Except.noConfusion h
  rcases h4 : validate_area raw.area with e | ar <;>
    simp only [h4, ok_bind, error_bind] at h
  · exact Except.noConfusion h
  rcases h5 : validate_keypoints raw.keypoints with e | kp <;>
    simp only [h5, ok_bind, error_bind] at h
  · exact Except.noConfusion h
  rcases h6 : validate_num_keypoints raw.num_keypoints with e | nk <;>
    simp only [h6, ok_bind, error_bind] at h
  · exact Except.noConfusion h
  rcases h7 : validate_caption raw.caption with e | cp <;>
    simp only [h7, ok_bind, error_bind] at h
  · exact Except.noConfusion h
  rcases h8 : validate_value raw.value with e | vl <;>
    simp only [h8, ok_bind, error_bind] at h
  · exact Except.noConfusion h
  rcases h9 : validate_iscrowd raw.iscrowd with e | ic <;>
    simp only [h9, ok_bind, error_bind] at h
  · exact Except.noConfusion h
  rcases h10 : validate_score raw.score with e | sc <;>
    simp only [h10, ok_bind, error_bind] at h
  · exact Except.noConfusion h
  rcases h11 : validate_is_prediction raw.is_prediction with e | ip <;>
    simp only [h11, ok_bind, error_bind, pure_eq_ok] at h
  · exact Except.noConfusion h
  cases h
  exact ⟨rfl, rfl, rfl, rfl, rfl, rfl, rfl, rfl, rfl, rfl, rfl⟩

/-- Claim C8 witness: a sparse patch supplying only a valid bbox stores it
unchanged, leaves all other fields null, and its stored bbox is the output of
the same `validate_bbox` used by the record constructor. -/
theorem C8_witness :
    (construct_update { bbox := .qlist [0, 0, 1, 1] } = .ok
      ⟨none, some [0, 0, 1, 1], none, none, none, none, none, none, none, none,
        none⟩) ∧
    validate_bbox (.qlist [0, 0, 1, 1]) = .ok (some [0, 0, 1, 1]) := by
  have h : construct_update { bbox := .qlist [0, 0, 1, 1] } = .ok
      ⟨none, some [0, 0, 1, 1], none, none, none, none, none, none, none, none,
        none⟩ := by with_unfolding_all decide
  refine ⟨h, ?_⟩
  have hc := (C8_theorem.2 _ _ h).2.1
  simpa using hc

/-- Claim C2 counterexample: `text_recognition(image_id="test",
category_id=None, caption="hello")` builds successfully — the task's
required-field table does not list `category_id` — but reconstructing from
its mapping form fails with the language-level argument error, because
`category_id` is a mandatory parameter of the `text_recognition` factory and
the mapping form omits null attributes; so the round-trip does not hold for
every successfully built record. -/
theorem C2_counterexample :
    buildFactory "a" .TEXT_RECOGNITION
      { image_id := .s "test", caption := .s "hello" }
    = .ok ⟨"a", ⟨.TEXT_RECOGNITION, some "test", none, none, none, none, none,
        none, some "hello", none, none, none, some false⟩⟩ ∧
    from_mapping "b" .TEXT_RECOGNITION
      (to_mapping ⟨"a", ⟨.TEXT_RECOGNITION, some "test", none, none, none, none,
        none, none, some "hello", none, none, none, some false⟩⟩)
    = .error .typeError := by
  with_unfolding_all decide

/-- Claim C2 (amended): for every record successfully built by a
task-specific factory such that every mandatory parameter of that task's
factory is non-null in the record and the record's bbox, when present, is a
valid box (4 nonnegative entries — a bbox derived from a polygon with a
negative coordinate fails re-validation), reconstruction via
`from_mapping(task, to_mapping(record))` succeeds and yields a record equal
to the original under the equality law that excludes `id`. -/
theorem C2_theorem (id id' : String) (t : TaskType) (raw : RawInfo)
    (x : IdentifiedInfo)
    (hbuild : buildFactory id t raw = .ok x)
    (hman : ∀ f ∈ mandatoryParams t, isNullField x.info f = false)
    (hB : ∀ l, x.info.bbox = some l → l.length = 4 ∧ ∀ v ∈ l, 0 ≤ v) :
    ∃ y, from_mapping id' t (to_mapping x) = .ok y ∧ eqExceptId x y := by
  obtain ⟨xid, info⟩ := x
  have hrun : runFactory t raw = .ok info := by
    rcases hr : runFactory t raw with e | info' <;>
      simp only [buildFactory, hr, error_map, ok_map] at hbuild
    · exact Except.noConfusion hbuild
    · cases hbuild; rfl
  simp only at hman hB
  refine ⟨⟨id', info⟩, ?_, rfl⟩
  cases t
  case CLASSIFICATION => exact roundtrip_cls xid id' hrun
  case OBJECT_DETECTION => exact roundtrip_od xid id' hrun
  case SEMANTIC_SEGMENTATION => exact roundtrip_ss xid id' hrun hB
  case INSTANCE_SEGMENTATION => exact roundtrip_is xid id' hrun hB
  case KEYPOINT_DETECTION =>
    refine roundtrip_kd xid id' hrun ?_ hB
    have hb := hman "bbox" (by simp [mandatoryParams])
    simp only [isNullField] at hb
    intro hn
    rw [hn] at hb
    exact Bool.noConfusion hb
  case TEXT_RECOGNITION =>
    refine roundtrip_tr xid id' hrun ?_
    have hb := hman "category_id" (by simp [mandatoryParams])
    simp only [isNullField] at hb
    intro hn
    rw [hn] at hb
    exact Bool.noConfusion hb
  case REGRESSION => exact roundtrip_reg xid id' hrun

/-- Claim C2 witness: the amended round-trip at the object-detection test
scenario. -/
theorem C2_witness :
    ∃ y, from_mapping "b" .OBJECT_DETECTION
      (to_mapping ⟨"a", ⟨.OBJECT_DETECTION, some "test", some "test",
        some [0, 0, 1, 1], none, some 1, none, none, none, none, some 0, none,
        some false⟩⟩) = .ok y ∧
      eqExceptId ⟨"a", ⟨.OBJECT_DETECTION, some "test", some "test",
        some [0, 0, 1, 1], none, some 1, none, none, none, none, some 0, none,
        some false⟩⟩ y :=
  C2_theorem "a" "b" .OBJECT_DETECTION
    { image_id := .s "test", category_id := .s "test", bbox := .qlist [0, 0, 1, 1],
      iscrowd := .i 0 } _
    (by with_unfolding_all decide)
    (by with_unfolding_all decide)
    (by intro l hl; cases hl; with_unfolding_all decide)

end WaffleDough
